import Mathlib

/-!
Shallow embedding of the EXIF/XMP metadata decoder of `src/tiny_exif.c`.

Byte buffers are modelled as `List ℕ` (each entry a byte value, read through
`List.getD` with default 0), C `double` values as `ℚ`, and the fixed 64 KiB
string arena of `exif_info_t` as a cursor `next : ℕ` together with its byte
content `arena : ℕ → ℕ`.  C strings (`exif_str_t`) are modelled by their byte
content (`List ℕ`).  Unsigned 32-bit wrap-around is written out explicitly as
`% 4294967296` at the places where the C code performs `uint32_t` arithmetic
that can wrap.  The XMP sub-tree of the record is modelled as one slot per
entry of the `npv` rule table (the C code holds one distinct `exif_str_t`
field pointer per table entry); `none` models a null pointer.

The streaming XML tokenizer (`yxml`, not part of this repository) is an
external collaborator; it is modelled as a parameter producing the list of
element-start / content / element-end events for a byte string together with
the final well-formedness verdict of `yxml_eof`.
-/

namespace TinyExif

/-- Result codes of `tiny_exif.h`. -/
def EXIF_PARSE_SUCCESS : ℕ := 0

def EXIF_PARSE_INVALID_JPEG : ℕ := 1

def EXIF_PARSE_UNKNOWN_BYTEALIGN : ℕ := 2

def EXIF_PARSE_ABSENT_DATA : ℕ := 3

def EXIF_PARSE_CORRUPT_DATA : ℕ := 4

/-- Field-presence bits of `tiny_exif.h`. -/
def EXIF_FIELD_NA : ℕ := 0

def EXIF_FIELD_EXIF : ℕ := 1

def EXIF_FIELD_XMP : ℕ := 2

def EXIF_FIELD_ALL : ℕ := 3

/-- 2^32, the modulus of `uint32_t` arithmetic. -/
def U32 : ℕ := 4294967296

/-- DBL_MAX, the "absent" sentinel used by the record for GPS and attitude
fields: (2 - 2^-52) * 2^1023 = 2^1024 - 2^971, an exact integer. -/
def dblMax : ℚ := 2 ^ 1024 - 2 ^ 971

/-- parse8: read one byte. -/
def parse8 (data : List ℕ) (pos : ℕ) : ℕ := data.getD pos 0

/-- parse16: read a 16-bit word, little endian when `intel`. -/
def parse16 (data : List ℕ) (pos : ℕ) (intel : Bool) : ℕ :=
  if intel then (data.getD (pos + 1) 0) <<< 8 ||| data.getD pos 0
  else (data.getD pos 0) <<< 8 ||| data.getD (pos + 1) 0

/-- parse32: read a 32-bit word, little endian when `intel`. -/
def parse32 (data : List ℕ) (pos : ℕ) (intel : Bool) : ℕ :=
  if intel then
    (data.getD (pos + 3) 0) <<< 24 ||| (data.getD (pos + 2) 0) <<< 16 |||
      (data.getD (pos + 1) 0) <<< 8 ||| data.getD pos 0
  else
    (data.getD pos 0) <<< 24 ||| (data.getD (pos + 1) 0) <<< 16 |||
      (data.getD (pos + 2) 0) <<< 8 ||| data.getD (pos + 3) 0

/-- Reinterpret a 32-bit word as a signed two's-complement value. -/
def toInt32 (u : ℕ) : ℤ :=
  if u < 2147483648 then (u : ℤ) else (u : ℤ) - 4294967296

/-- parse_float: reinterpret a 32-bit word as an IEEE-754 single.  Finite
values are decoded exactly into `ℚ`; the exponent-255 encodings (infinities
and NaNs) have no rational value and are mapped to 0 (no claim depends on
them). -/
def parse_float (data : List ℕ) (pos : ℕ) (intel : Bool) : ℚ :=
  let u := parse32 data pos intel
  let sgn := (u >>> 31) &&& 1
  let e := (u >>> 23) &&& 255
  let m := u &&& 8388607
  if e = 255 then 0
  else
    (if sgn = 1 then -1 else 1) *
      ((if e = 0 then 2 * m else 2 ^ e * (8388608 + m) : ℕ) : ℚ) / 2 ^ 150

/-- parse_rational: numerator at `pos`, denominator at `pos + 4`; a zero
denominator word yields 0.0 before any division is attempted. -/
def parse_rational (data : List ℕ) (pos : ℕ) (intel isSigned : Bool) : ℚ :=
  let denominator := parse32 data (pos + 4) intel
  if denominator = 0 then 0
  else
    let numerator := parse32 data pos intel
    if isSigned then (toInt32 numerator : ℚ) / (toInt32 denominator : ℚ)
    else (numerator : ℚ) / (denominator : ℚ)

/-- Values held by an XMP rule slot: a pointer into the record arena, or the
static empty-list literal `"\x00\x00"` assigned by the completion loop of
`parse_xmp_xml`.  `Option` of this type models the nullable `exif_str_t`. -/
inductive XmpVal where
  | ptr (q : ℕ)
  | sentinel
deriving DecidableEq

/-- GeoLocation coordinate components (struct Coord_t). -/
structure Coord_t where
  degrees : ℚ
  minutes : ℚ
  seconds : ℚ
  direction : ℕ

/-- Camera calibration info (struct Calibration_t). -/
structure Calibration_t where
  FocalLength : ℚ
  OpticalCenterX : ℚ
  OpticalCenterY : ℚ

/-- Lens information (struct LensInfo_t). -/
structure LensInfo_t where
  FStopMin : ℚ
  FStopMax : ℚ
  FocalLengthMin : ℚ
  FocalLengthMax : ℚ
  DigitalZoomRatio : ℚ
  FocalLengthIn35mm : ℚ
  FocalPlaneXResolution : ℚ
  FocalPlaneYResolution : ℚ
  FocalPlaneResolutionUnit : ℕ
  Make : List ℕ
  Model : List ℕ

/-- GPS information (struct Geolocation_t). -/
structure Geolocation_t where
  Latitude : ℚ
  Longitude : ℚ
  Altitude : ℚ
  AltitudeRef : ℕ
  RelativeAltitude : ℚ
  RollDegree : ℚ
  PitchDegree : ℚ
  YawDegree : ℚ
  SpeedX : ℚ
  SpeedY : ℚ
  SpeedZ : ℚ
  AccuracyXY : ℚ
  AccuracyZ : ℚ
  GPSDOP : ℚ
  GPSDifferential : ℕ
  GPSMapDatum : List ℕ
  GPSTimeStamp : List ℕ
  GPSDateStamp : List ℕ
  LatComponents : Coord_t
  LonComponents : Coord_t

/-- Spherical metadata (struct GPano_t). -/
structure GPano_t where
  PosePitchDegrees : ℚ
  PoseRollDegrees : ℚ

/-- Google micro-video metadata (struct MicroVideo_t). -/
structure MicroVideo_t where
  HasMicroVideo : ℕ
  MicroVideoVersion : ℕ
  MicroVideoOffset : ℕ

/-- The metadata record `exif_info_t`.  The `xmp` sub-tree is indexed by the
position of the owning rule in the `npv` table of `parse_xmp_xml` (the C
struct holds one distinct string field per rule). -/
structure exif_info where
  has_app1 : Bool
  has_xmp : Bool
  not_enough_memory : Bool
  dump : Bool
  arena : ℕ → ℕ
  next : ℕ
  Fields : ℕ
  ExifVersion : ℕ
  ImageWidth : ℕ
  ImageHeight : ℕ
  RelatedImageWidth : ℕ
  RelatedImageHeight : ℕ
  ImageDescription : List ℕ
  Artist : List ℕ
  UserComment : List ℕ
  Make : List ℕ
  Model : List ℕ
  SerialNumber : List ℕ
  Orientation : ℕ
  XResolution : ℚ
  YResolution : ℚ
  ResolutionUnit : ℕ
  BitsPerSample : ℕ
  Software : List ℕ
  DateTime : List ℕ
  DateTimeOriginal : List ℕ
  DateTimeDigitized : List ℕ
  SubSecTimeOriginal : List ℕ
  Copyright : List ℕ
  OffsetTimeOriginal : List ℕ
  FlashPixVersion : ℕ
  ExposureTime : ℚ
  FNumber : ℚ
  ExposureProgram : ℕ
  ColorSpace : ℕ
  SceneType : ℕ
  ExposureMode : ℕ
  WhiteBalance : ℕ
  CaptureType : ℕ
  ComponentConfig : ℕ
  YCCPositioning : ℕ
  SensingMethod : ℕ
  ISOSpeedRatings : ℕ
  ShutterSpeedValue : ℚ
  MaxAperture : ℚ
  ApertureValue : ℚ
  BrightnessValue : ℚ
  ExposureBiasValue : ℚ
  SubjectDistance : ℚ
  FocalLength : ℚ
  Flash : ℕ
  MeteringMode : ℕ
  LightSource : ℕ
  ProjectionType : ℕ
  SubjectAreas : ℕ
  SubjectArea : ℕ → ℕ
  Calibration : Calibration_t
  LensInfo : LensInfo_t
  GeoLocation : Geolocation_t
  GPano : GPano_t
  MicroVideo : MicroVideo_t
  xmp : ℕ → Option XmpVal

/-- exif_clear: reset exactly the fields the source resets (note that e.g.
`Artist`, `ExifVersion`, `MaxAperture`, the `has_*` flags, the arena bytes and
the `xmp` slots are not touched by the source). -/
def exif_clear (ei : exif_info) : exif_info :=
  { ei with
    Fields := EXIF_FIELD_NA
    next := 0
    ImageDescription := []
    Make := []
    Model := []
    SerialNumber := []
    Software := []
    DateTime := []
    DateTimeOriginal := []
    DateTimeDigitized := []
    SubSecTimeOriginal := []
    Copyright := []
    ImageWidth := 0
    ImageHeight := 0
    RelatedImageWidth := 0
    RelatedImageHeight := 0
    Orientation := 0
    XResolution := 0
    YResolution := 0
    ResolutionUnit := 0
    BitsPerSample := 0
    ExposureTime := 0
    FNumber := 0
    ExposureProgram := 0
    ISOSpeedRatings := 0
    ShutterSpeedValue := 0
    ApertureValue := 0
    BrightnessValue := 0
    ExposureBiasValue := 0
    SubjectDistance := 0
    FocalLength := 0
    Flash := 0
    MeteringMode := 0
    LightSource := 0
    ProjectionType := 0
    SubjectAreas := 0
    SubjectArea := fun _ => 0
    Calibration := { FocalLength := 0, OpticalCenterX := 0, OpticalCenterY := 0 }
    LensInfo :=
      { FStopMin := 0, FStopMax := 0, FocalLengthMin := 0, FocalLengthMax := 0
        DigitalZoomRatio := 0, FocalLengthIn35mm := 0
        FocalPlaneXResolution := 0, FocalPlaneYResolution := 0
        FocalPlaneResolutionUnit := 0, Make := [], Model := [] }
    GeoLocation :=
      { Latitude := dblMax, Longitude := dblMax, Altitude := dblMax
        AltitudeRef := 0, RelativeAltitude := dblMax
        RollDegree := dblMax, PitchDegree := dblMax, YawDegree := dblMax
        SpeedX := dblMax, SpeedY := dblMax, SpeedZ := dblMax
        AccuracyXY := 0, AccuracyZ := 0, GPSDOP := 0
        GPSDifferential := 0, GPSMapDatum := [], GPSTimeStamp := []
        GPSDateStamp := []
        LatComponents := { degrees := dblMax, minutes := 0, seconds := 0, direction := 0 }
        LonComponents := { degrees := dblMax, minutes := 0, seconds := 0, direction := 0 } }
    GPano := { PosePitchDegrees := dblMax, PoseRollDegrees := dblMax }
    MicroVideo := { HasMicroVideo := 0, MicroVideoVersion := 0, MicroVideoOffset := 0 } }

/-- The entry parser state (struct entry_parser_s); `info` is the record the
C code reaches through the `info` pointer. -/
structure entry_parser_t where
  data : List ℕ
  bytes : ℕ
  tiff_header_start : ℕ
  alignIntel : Bool
  offs : ℕ
  tag : ℕ
  format : ℕ
  length : ℕ
  info : exif_info

/-- parser_init: `p->offs = _offs - 12` (uint32 wrap-around subtraction). -/
def parser_init (p : entry_parser_t) (o : ℕ) : entry_parser_t :=
  { p with offs := (o + 4294967284) % U32 }

/-- get_data: the 4-byte value/offset field of the current entry. -/
def get_data (p : entry_parser_t) : ℕ := parse32 p.data (p.offs + 8) p.alignIntel

/-- get_sub_ifd: `tiff_header_start + get_data` as uint32. -/
def get_sub_ifd (p : entry_parser_t) : ℕ := (p.tiff_header_start + get_data p) % U32

/-- parse_tag: advance to the next 12-byte entry and cache tag/format/length. -/
def parse_tag (p : entry_parser_t) : entry_parser_t :=
  let o := (p.offs + 12) % U32
  { p with
    offs := o
    tag := parse16 p.data o p.alignIntel
    format := parse16 p.data (o + 2) p.alignIntel
    length := parse32 p.data (o + 4) p.alignIntel }

/-- Sequential byte store (`memcpy`-style) into the arena content function. -/
def writeBytes (a : ℕ → ℕ) (pos : ℕ) : List ℕ → (ℕ → ℕ)
  | [] => a
  | b :: rest => writeBytes (fun j => if j = pos then b else a j) (pos + 1) rest

/-- parse_string: decode an ASCII tag value into the record arena.  The
source's capacity guard is transcribed verbatim: it compares
`next - strings + sizeof(strings)` (cursor + capacity) against
`num_components + 1`, so it can never fire; see the development notes on the
arena claims.  In the inline branch no terminating NUL is stored by the
source; the returned string value is the stored bytes up to the first NUL.
When neither branch stores anything, the source returns a pointer to the
unwritten arena position; that (indeterminate) value is modelled as the
empty string. -/
def parse_string (p : entry_parser_t) (buf : List ℕ)
    (num_components value base count : ℕ) (intel : Bool) : List ℕ × exif_info :=
  let ei := p.info
  if num_components ≤ 4 then
    if ei.next + 65536 ≤ num_components + 1 then ([], ei)
    else
      let stored := (List.range num_components).map (fun i =>
        if intel then (value >>> (8 * i)) &&& 255 else (value >>> (24 - 8 * i)) &&& 255)
      (stored.takeWhile (fun c => c ≠ 0),
        { ei with
          next := ei.next + num_components + 1
          arena := writeBytes ei.arena ei.next stored })
  else if base + value + num_components ≤ count then
    let s := (buf.drop (base + value)).take num_components
    let s1 := s.takeWhile (fun c => c ≠ 0)
    let s2 := (s1.reverse.dropWhile (fun c => c = 32)).reverse
    if ei.next + 65536 ≤ s2.length + 1 then ([], ei)
    else
      (s2,
        { ei with
          next := ei.next + s2.length + 1
          arena := writeBytes ei.arena ei.next (s2 ++ [0]) })
  else ([], ei)

/-- parser_fetch_str: format 2 (ASCII) with nonzero length. -/
def parser_fetch_str (p : entry_parser_t) : Option (List ℕ) × entry_parser_t :=
  if p.format ≠ 2 ∨ p.length = 0 then (none, p)
  else
    let r := parse_string p p.data p.length (get_data p) p.tiff_header_start
      p.bytes p.alignIntel
    (some r.1, { p with info := r.2 })

/-- parser_fetch8: formats 1, 2 or 6 with nonzero length. -/
def parser_fetch8 (p : entry_parser_t) : Option ℕ :=
  if (p.format ≠ 1 ∧ p.format ≠ 2 ∧ p.format ≠ 6) ∨ p.length = 0 then none
  else some (parse8 p.data (p.offs + 8))

/-- parser_fetch16: format 3 (SHORT) with nonzero length. -/
def parser_fetch16 (p : entry_parser_t) : Option ℕ :=
  if p.format = 3 ∧ p.length ≠ 0 then some (parse16 p.data (p.offs + 8) p.alignIntel)
  else none

/-- parser_fetch16_idx: indexed SHORT read through the sub-IFD offset. -/
def parser_fetch16_idx (p : entry_parser_t) (idx : ℕ) : Option ℕ :=
  if p.format = 3 ∧ idx < p.length then
    some (parse16 p.data (get_sub_ifd p + idx * 2) p.alignIntel)
  else none

/-- parser_fetch32: format 4 (LONG) with nonzero length. -/
def parser_fetch32 (p : entry_parser_t) : Option ℕ :=
  if p.format = 4 ∧ p.length ≠ 0 then some (parse32 p.data (p.offs + 8) p.alignIntel)
  else none

/-- parser_fetch_float: format 11 (FLOAT) with nonzero length. -/
def parser_fetch_float (p : entry_parser_t) : Option ℚ :=
  if p.format = 11 ∧ p.length ≠ 0 then some (parse_float p.data (p.offs + 8) p.alignIntel)
  else none

/-- parser_fetch_double: formats 5/10 (RATIONAL/SRATIONAL), nonzero length. -/
def parser_fetch_double (p : entry_parser_t) : Option ℚ :=
  if (p.format = 5 ∨ p.format = 10) ∧ p.length ≠ 0 then
    some (parse_rational p.data (get_sub_ifd p) p.alignIntel (p.format = 10))
  else none

/-- parser_fetch_double_idx: indexed rational read. -/
def parser_fetch_double_idx (p : entry_parser_t) (idx : ℕ) : Option ℚ :=
  if (p.format = 5 ∨ p.format = 10) ∧ idx < p.length then
    some (parse_rational p.data (get_sub_ifd p + idx * 8) p.alignIntel (p.format = 10))
  else none

/-- parser_fetch_float_as_doble: float fetched, then widened (exactly). -/
def parser_fetch_float_as_doble (p : entry_parser_t) : Option ℚ :=
  parser_fetch_float p

/-- geolocation_parse_coords: degree/minute/second plus hemisphere to signed
decimal; altitude sign from the altitude reference ('S' = 83, 'W' = 87). -/
def geolocation_parse_coords (ei : exif_info) : exif_info :=
  let g := ei.GeoLocation
  let g1 :=
    if g.LatComponents.degrees ≠ dblMax ∨ g.LatComponents.minutes ≠ 0 ∨
        g.LatComponents.seconds ≠ 0 then
      let lat := g.LatComponents.degrees + g.LatComponents.minutes / 60 +
        g.LatComponents.seconds / 3600
      { g with Latitude := if g.LatComponents.direction = 83 then -lat else lat }
    else g
  let g2 :=
    if g1.LonComponents.degrees ≠ dblMax ∨ g1.LonComponents.minutes ≠ 0 ∨
        g1.LonComponents.seconds ≠ 0 then
      let lon := g1.LonComponents.degrees + g1.LonComponents.minutes / 60 +
        g1.LonComponents.seconds / 3600
      { g1 with Longitude := if g1.LonComponents.direction = 87 then -lon else lon }
    else g1
  let g3 :=
    if g2.Altitude ≠ dblMax ∧ g2.AltitudeRef = 1 then
      { g2 with Altitude := -g2.Altitude }
    else g2
  { ei with GeoLocation := g3 }

/-- strcasecmp equality: ASCII case-insensitive comparison of byte strings. -/
def lowerByte (c : ℕ) : ℕ := if 65 ≤ c ∧ c ≤ 90 then c + 32 else c

/-- Case-insensitive string equality (`0 == strcasecmp(a, b)`). -/
def strcaseeq (a b : List ℕ) : Bool := a.map lowerByte == b.map lowerByte

/-- Base-2 exponential on `ℚ` used by the APEX conversions
(`exp(x * log 2)` on doubles).  Exact for integral arguments; a non-integral
argument has an irrational image, which `ℚ` cannot carry — those values are
mapped to 0 and are not relied on by any claim. -/
def exp2q (q : ℚ) : ℚ := if q.den = 1 then 2 ^ q.num else 0

/-- The C cast `(uint16_t)` applied to a double (truncation, then wrap).
Negative and huge inputs are undefined behavior in C; the model truncates
non-negative values and maps negative ones to 0. -/
def q_to_uint16 (q : ℚ) : ℕ := if q < 0 then 0 else q.floor.toNat % 65536

/-- Byte content produced by `snprintf(buffer, 256, "%g %g %g", h, m, s)` for
the GPS timestamp.  The `%g` rendering of doubles is abstracted (no claim
depends on these bytes; the source also stores a dangling pointer to a stack
buffer here). -/
def gps_time_stamp_fmt (h m s : ℚ) : List ℕ := [(h.floor.toNat), (m.floor.toNat), (s.floor.toNat)]

/-- The inner entry loop of exif_parse_ifd_maker_note: decodes the six DJI
telemetry float tags (3, 4, 5, 9, 10, 11). -/
def mn_walk : ℕ → entry_parser_t → entry_parser_t
  | 0, p => p
  | n + 1, p =>
    let p1 := parse_tag p
    let p2 :=
      match p1.tag with
      | 3 =>
        match parser_fetch_float_as_doble p1 with
        | some v => { p1 with info := { p1.info with
            GeoLocation := { p1.info.GeoLocation with SpeedX := v } } }
        | none => p1
      | 4 =>
        match parser_fetch_float_as_doble p1 with
        | some v => { p1 with info := { p1.info with
            GeoLocation := { p1.info.GeoLocation with SpeedY := v } } }
        | none => p1
      | 5 =>
        match parser_fetch_float_as_doble p1 with
        | some v => { p1 with info := { p1.info with
            GeoLocation := { p1.info.GeoLocation with SpeedZ := v } } }
        | none => p1
      | 9 =>
        match parser_fetch_float_as_doble p1 with
        | some v => { p1 with info := { p1.info with
            GeoLocation := { p1.info.GeoLocation with PitchDegree := v } } }
        | none => p1
      | 10 =>
        match parser_fetch_float_as_doble p1 with
        | some v => { p1 with info := { p1.info with
            GeoLocation := { p1.info.GeoLocation with YawDegree := v } } }
        | none => p1
      | 11 =>
        match parser_fetch_float_as_doble p1 with
        | some v => { p1 with info := { p1.info with
            GeoLocation := { p1.info.GeoLocation with RollDegree := v } } }
        | none => p1
      | _ => p1
    mn_walk n p2

/-- exif_parse_ifd_maker_note.  Note: the source reads the sub-IFD entry
count with `parse16(p->data + p->offs, ...)` — at the current outer entry
position, whose first two bytes are the entry's own tag (0x927C) — rather
than at the sub-IFD offset `off`. -/
def exif_parse_ifd_maker_note (p : entry_parser_t) : entry_parser_t :=
  let startOff := p.offs
  let off := get_sub_ifd p
  if ¬ strcaseeq p.info.Make [68, 74, 73] then p
  else
    let num_entries := parse16 p.data p.offs p.alignIntel
    if p.length < 2 + 12 * num_entries then p
    else
      let p1 := parse_tag (parser_init p (off + 2))
      let p3 :=
        if p1.tag = 1 then
          let r := parser_fetch_str p1
          match r.1 with
          | some maker =>
            if strcaseeq maker [68, 74, 73] then mn_walk (num_entries - 1) r.2
            else r.2
          | none => r.2
        else p1
      parser_init p3 (startOff + 12)

/-- exif_parse_ifd_gps: dispatch one GPS sub-IFD entry. -/
def exif_parse_ifd_gps (p : entry_parser_t) : entry_parser_t :=
  match p.tag with
  | 1 =>
    match parser_fetch8 p with
    | some v => { p with info := { p.info with
        GeoLocation := { p.info.GeoLocation with
          LatComponents := { p.info.GeoLocation.LatComponents with direction := v } } } }
    | none => p
  | 2 =>
    if (p.format = 5 ∨ p.format = 10) ∧ p.length = 3 then
      let i0 := p.info
      let i1 := match parser_fetch_double_idx p 0 with
        | some v => { i0 with GeoLocation := { i0.GeoLocation with
            LatComponents := { i0.GeoLocation.LatComponents with degrees := v } } }
        | none => i0
      let i2 := match parser_fetch_double_idx p 1 with
        | some v => { i1 with GeoLocation := { i1.GeoLocation with
            LatComponents := { i1.GeoLocation.LatComponents with minutes := v } } }
        | none => i1
      let i3 := match parser_fetch_double_idx p 2 with
        | some v => { i2 with GeoLocation := { i2.GeoLocation with
            LatComponents := { i2.GeoLocation.LatComponents with seconds := v } } }
        | none => i2
      { p with info := i3 }
    else p
  | 3 =>
    match parser_fetch8 p with
    | some v => { p with info := { p.info with
        GeoLocation := { p.info.GeoLocation with
          LonComponents := { p.info.GeoLocation.LonComponents with direction := v } } } }
    | none => p
  | 4 =>
    if (p.format = 5 ∨ p.format = 10) ∧ p.length = 3 then
      let i0 := p.info
      let i1 := match parser_fetch_double_idx p 0 with
        | some v => { i0 with GeoLocation := { i0.GeoLocation with
            LonComponents := { i0.GeoLocation.LonComponents with degrees := v } } }
        | none => i0
      let i2 := match parser_fetch_double_idx p 1 with
        | some v => { i1 with GeoLocation := { i1.GeoLocation with
            LonComponents := { i1.GeoLocation.LonComponents with minutes := v } } }
        | none => i1
      let i3 := match parser_fetch_double_idx p 2 with
        | some v => { i2 with GeoLocation := { i2.GeoLocation with
            LonComponents := { i2.GeoLocation.LonComponents with seconds := v } } }
        | none => i2
      { p with info := i3 }
    else p
  | 5 =>
    -- uint8_t altitude = 0; parser_fetch8(...); AltitudeRef = altitude;
    { p with info := { p.info with
        GeoLocation := { p.info.GeoLocation with
          AltitudeRef := (parser_fetch8 p).getD 0 } } }
  | 6 =>
    match parser_fetch_double p with
    | some v => { p with info := { p.info with
        GeoLocation := { p.info.GeoLocation with Altitude := v } } }
    | none => p
  | 7 =>
    if (p.format = 5 ∨ p.format = 10) ∧ p.length = 3 then
      let h := (parser_fetch_double_idx p 0).getD 0
      let m := (parser_fetch_double_idx p 1).getD 0
      let s := (parser_fetch_double_idx p 2).getD 0
      { p with info := { p.info with
          GeoLocation := { p.info.GeoLocation with
            GPSTimeStamp := gps_time_stamp_fmt h m s } } }
    else p
  | 11 =>
    match parser_fetch_double p with
    | some v => { p with info := { p.info with
        GeoLocation := { p.info.GeoLocation with GPSDOP := v } } }
    | none => p
  | 18 =>
    let r := parser_fetch_str p
    match r.1 with
    | some s => { r.2 with info := { r.2.info with
        GeoLocation := { r.2.info.GeoLocation with GPSMapDatum := s } } }
    | none => r.2
  | 29 =>
    let r := parser_fetch_str p
    match r.1 with
    | some s => { r.2 with info := { r.2.info with
        GeoLocation := { r.2.info.GeoLocation with GPSDateStamp := s } } }
    | none => r.2
  | 30 =>
    match parser_fetch16 p with
    | some v => { p with info := { p.info with
        GeoLocation := { p.info.GeoLocation with GPSDifferential := v } } }
    | none => p
  | _ => p

/-- exif_parse_ifd: dispatch one Exif sub-IFD entry. -/
def exif_parse_ifd (p : entry_parser_t) : entry_parser_t :=
  match p.tag with
  | 0x02bc =>
    -- XMP Metadata: the source sets has_xmp and, when the format is 7
    -- (UNDEFINED), fetches the payload with parser_fetch_str — which
    -- requires format 2 and thus always fails, leaving the xml pointer
    -- null; the subsequent strlen(null) has no defined behavior, so only
    -- the has_xmp update is reachable in a well-defined execution.
    { p with info := { p.info with has_xmp := true } }
  | 0x829a =>
    match parser_fetch_double p with
    | some v => { p with info := { p.info with ExposureTime := v } }
    | none => p
  | 0x829d =>
    match parser_fetch_double p with
    | some v => { p with info := { p.info with FNumber := v } }
    | none => p
  | 0x8822 =>
    match parser_fetch16 p with
    | some v => { p with info := { p.info with ExposureProgram := v } }
    | none => p
  | 0x8827 =>
    match parser_fetch16 p with
    | some v => { p with info := { p.info with ISOSpeedRatings := v } }
    | none => p
  | 0x9003 =>
    let r := parser_fetch_str p
    match r.1 with
    | some s => { r.2 with info := { r.2.info with DateTimeOriginal := s } }
    | none => r.2
  | 0x9004 =>
    let r := parser_fetch_str p
    match r.1 with
    | some s => { r.2 with info := { r.2.info with DateTimeDigitized := s } }
    | none => r.2
  | 0x9201 =>
    -- the APEX conversion is applied to the field even if the fetch failed
    let i1 := match parser_fetch_double p with
      | some v => { p.info with ShutterSpeedValue := v }
      | none => p.info
    { p with info := { i1 with ShutterSpeedValue := 1 / exp2q i1.ShutterSpeedValue } }
  | 0x9202 =>
    let i1 := match parser_fetch_double p with
      | some v => { p.info with ApertureValue := v }
      | none => p.info
    { p with info := { i1 with ApertureValue := exp2q (i1.ApertureValue / 2) } }
  | 0x9203 =>
    match parser_fetch_double p with
    | some v => { p with info := { p.info with BrightnessValue := v } }
    | none => p
  | 0x9204 =>
    match parser_fetch_double p with
    | some v => { p with info := { p.info with ExposureBiasValue := v } }
    | none => p
  | 0x9206 =>
    match parser_fetch_double p with
    | some v => { p with info := { p.info with SubjectDistance := v } }
    | none => p
  | 0x9207 =>
    match parser_fetch16 p with
    | some v => { p with info := { p.info with MeteringMode := v } }
    | none => p
  | 0x9208 =>
    match parser_fetch16 p with
    | some v => { p with info := { p.info with LightSource := v } }
    | none => p
  | 0x9209 =>
    match parser_fetch16 p with
    | some v => { p with info := { p.info with Flash := v } }
    | none => p
  | 0x920a =>
    match parser_fetch_double p with
    | some v => { p with info := { p.info with FocalLength := v } }
    | none => p
  | 0x9214 =>
    if p.format = 3 ∧ 1 < p.length then
      let n := p.length % 65536
      let arr := (List.range n).foldl (fun a i =>
        match parser_fetch16_idx p i with
        | some v => fun j => if j = i then v else a j
        | none => a) p.info.SubjectArea
      { p with info := { p.info with SubjectAreas := n, SubjectArea := arr } }
    else p
  | 0x927c => exif_parse_ifd_maker_note p
  | 0x9286 =>
    let r := parser_fetch_str p
    match r.1 with
    | some s => { r.2 with info := { r.2.info with ImageDescription := s } }
    | none => r.2
  | 0x9291 =>
    let r := parser_fetch_str p
    match r.1 with
    | some s => { r.2 with info := { r.2.info with SubSecTimeOriginal := s } }
    | none => r.2
  | 0xa002 =>
    match parser_fetch32 p with
    | some v => { p with info := { p.info with ImageWidth := v } }
    | none =>
      match parser_fetch16 p with
      | some v => { p with info := { p.info with ImageWidth := v } }
      | none => p
  | 0xa003 =>
    match parser_fetch32 p with
    | some v => { p with info := { p.info with ImageHeight := v } }
    | none =>
      match parser_fetch16 p with
      | some v => { p with info := { p.info with ImageHeight := v } }
      | none => p
  | 0xa20e =>
    match parser_fetch_double p with
    | some v => { p with info := { p.info with
        LensInfo := { p.info.LensInfo with FocalPlaneXResolution := v } } }
    | none => p
  | 0xa20f =>
    match parser_fetch_double p with
    | some v => { p with info := { p.info with
        LensInfo := { p.info.LensInfo with FocalPlaneYResolution := v } } }
    | none => p
  | 0xa210 =>
    match parser_fetch16 p with
    | some v => { p with info := { p.info with
        LensInfo := { p.info.LensInfo with FocalPlaneResolutionUnit := v } } }
    | none => p
  | 0xa215 =>
    if p.info.ISOSpeedRatings = 0 then
      match parser_fetch_double p with
      | some v => { p with info := { p.info with ISOSpeedRatings := q_to_uint16 v } }
      | none => p
    else p
  | 0xa404 =>
    match parser_fetch_double p with
    | some v => { p with info := { p.info with
        LensInfo := { p.info.LensInfo with DigitalZoomRatio := v } } }
    | none => p
  | 0xa405 =>
    match parser_fetch_double p with
    | some v => { p with info := { p.info with
        LensInfo := { p.info.LensInfo with FocalLengthIn35mm := v } } }
    | none =>
      match parser_fetch16 p with
      | some v => { p with info := { p.info with
          LensInfo := { p.info.LensInfo with FocalLengthIn35mm := (v : ℚ) } } }
      | none => p
  | 0xa431 =>
    let r := parser_fetch_str p
    match r.1 with
    | some s => { r.2 with info := { r.2.info with SerialNumber := s } }
    | none => r.2
  | 0xa432 =>
    match parser_fetch_double_idx p 0 with
    | some v0 =>
      let i0 := { p.info with LensInfo := { p.info.LensInfo with FocalLengthMin := v0 } }
      match parser_fetch_double_idx p 1 with
      | some v1 =>
        let i1 := { i0 with LensInfo := { i0.LensInfo with FocalLengthMax := v1 } }
        match parser_fetch_double_idx p 2 with
        | some v2 =>
          let i2 := { i1 with LensInfo := { i1.LensInfo with FStopMin := v2 } }
          match parser_fetch_double_idx p 3 with
          | some v3 =>
            { p with info := { i2 with LensInfo := { i2.LensInfo with FStopMax := v3 } } }
          | none => { p with info := i2 }
        | none => { p with info := i1 }
      | none => { p with info := i0 }
    | none => p
  | 0xa433 =>
    let r := parser_fetch_str p
    match r.1 with
    | some s => { r.2 with info := { r.2.info with
        LensInfo := { r.2.info.LensInfo with Make := s } } }
    | none => r.2
  | 0xa434 =>
    let r := parser_fetch_str p
    match r.1 with
    | some s => { r.2 with info := { r.2.info with
        LensInfo := { r.2.info.LensInfo with Model := s } } }
    | none => r.2
  | 0x013b =>
    let r := parser_fetch_str p
    match r.1 with
    | some s => { r.2 with info := { r.2.info with Artist := s } }
    | none => r.2
  | 0x9000 =>
    match parser_fetch32 p with
    | some v => { p with info := { p.info with ExifVersion := v } }
    | none => p
  | 0x9205 =>
    match parser_fetch_double p with
    | some v => { p with info := { p.info with MaxAperture := v } }
    | none => p
  | 0xa001 =>
    match parser_fetch16 p with
    | some v => { p with info := { p.info with ColorSpace := v } }
    | none => p
  | 0xa217 =>
    match parser_fetch16 p with
    | some v => { p with info := { p.info with SensingMethod := v } }
    | none => p
  | 0xa301 =>
    match parser_fetch16 p with
    | some v => { p with info := { p.info with SceneType := v } }
    | none => p
  | 0xa402 =>
    match parser_fetch16 p with
    | some v => { p with info := { p.info with ExposureMode := v } }
    | none => p
  | 0xa403 =>
    match parser_fetch16 p with
    | some v => { p with info := { p.info with WhiteBalance := v } }
    | none => p
  | 0xa406 =>
    match parser_fetch16 p with
    | some v => { p with info := { p.info with CaptureType := v } }
    | none => p
  | 0x0213 =>
    match parser_fetch16 p with
    | some v => { p with info := { p.info with YCCPositioning := v } }
    | none => p
  | 0x9011 =>
    let r := parser_fetch_str p
    match r.1 with
    | some s => { r.2 with info := { r.2.info with OffsetTimeOriginal := s } }
    | none => r.2
  | 0x9101 =>
    match parser_fetch16 p with
    | some v => { p with info := { p.info with ComponentConfig := v } }
    | none => p
  | 0xa000 =>
    match parser_fetch32 p with
    | some v => { p with info := { p.info with FlashPixVersion := v } }
    | none => p
  | _ => p

/-- exif_parse_ifd_image: dispatch one IFD0 entry; the Exif and GPS sub-IFD
offsets are accumulated and unrecognized tags fall through to the Exif
dispatcher. -/
def exif_parse_ifd_image (p : entry_parser_t) (exifOff gpsOff : ℕ) :
    entry_parser_t × ℕ × ℕ :=
  match p.tag with
  | 0x0102 =>
    (match parser_fetch16 p with
     | some v => { p with info := { p.info with BitsPerSample := v } }
     | none => p, exifOff, gpsOff)
  | 0x010e =>
    (let r := parser_fetch_str p
     match r.1 with
     | some s => { r.2 with info := { r.2.info with ImageDescription := s } }
     | none => r.2, exifOff, gpsOff)
  | 0x010f =>
    (let r := parser_fetch_str p
     match r.1 with
     | some s => { r.2 with info := { r.2.info with Make := s } }
     | none => r.2, exifOff, gpsOff)
  | 0x0110 =>
    (let r := parser_fetch_str p
     match r.1 with
     | some s => { r.2 with info := { r.2.info with Model := s } }
     | none => r.2, exifOff, gpsOff)
  | 0x0112 =>
    (match parser_fetch16 p with
     | some v => { p with info := { p.info with Orientation := v } }
     | none => p, exifOff, gpsOff)
  | 0x011a =>
    (match parser_fetch_double p with
     | some v => { p with info := { p.info with XResolution := v } }
     | none => p, exifOff, gpsOff)
  | 0x011b =>
    (match parser_fetch_double p with
     | some v => { p with info := { p.info with YResolution := v } }
     | none => p, exifOff, gpsOff)
  | 0x0128 =>
    (match parser_fetch16 p with
     | some v => { p with info := { p.info with ResolutionUnit := v } }
     | none => p, exifOff, gpsOff)
  | 0x0131 =>
    (let r := parser_fetch_str p
     match r.1 with
     | some s => { r.2 with info := { r.2.info with Software := s } }
     | none => r.2, exifOff, gpsOff)
  | 0x0132 =>
    (let r := parser_fetch_str p
     match r.1 with
     | some s => { r.2 with info := { r.2.info with DateTime := s } }
     | none => r.2, exifOff, gpsOff)
  | 0x1001 =>
    (match parser_fetch32 p with
     | some v => { p with info := { p.info with RelatedImageWidth := v } }
     | none =>
       match parser_fetch16 p with
       | some v => { p with info := { p.info with RelatedImageWidth := v } }
       | none => p, exifOff, gpsOff)
  | 0x1002 =>
    (match parser_fetch32 p with
     | some v => { p with info := { p.info with RelatedImageHeight := v } }
     | none =>
       match parser_fetch16 p with
       | some v => { p with info := { p.info with RelatedImageHeight := v } }
       | none => p, exifOff, gpsOff)
  | 0x8298 =>
    (let r := parser_fetch_str p
     match r.1 with
     | some s => { r.2 with info := { r.2.info with Copyright := s } }
     | none => r.2, exifOff, gpsOff)
  | 0x8769 => (p, get_sub_ifd p, gpsOff)
  | 0x8825 => (p, exifOff, get_sub_ifd p)
  | _ => (exif_parse_ifd p, exifOff, gpsOff)

/-- The IFD0 entry loop of exif_parse_from_segment. -/
def ifd0_walk : ℕ → entry_parser_t → ℕ → ℕ → entry_parser_t × ℕ × ℕ
  | 0, p, e, g => (p, e, g)
  | n + 1, p, e, g =>
    let r := exif_parse_ifd_image (parse_tag p) e g
    ifd0_walk n r.1 r.2.1 r.2.2

/-- The Exif sub-IFD entry loop of exif_parse_from_segment. -/
def exif_walk : ℕ → entry_parser_t → entry_parser_t
  | 0, p => p
  | n + 1, p => exif_walk n (exif_parse_ifd (parse_tag p))

/-- The GPS sub-IFD entry loop of exif_parse_from_segment. -/
def gps_walk : ℕ → entry_parser_t → entry_parser_t
  | 0, p => p
  | n + 1, p => gps_walk n (exif_parse_ifd_gps (parse_tag p))

/-- The 6-byte EXIF preamble "Exif\0\0". -/
def exifPreamble : List ℕ := [69, 120, 105, 102, 0, 0]

/-- Byte-order marker at offsets 6/7: "II" (Intel, little endian) or "MM"
(Motorola, big endian). -/
def byteAlign (data : List ℕ) : Option Bool :=
  if data.getD 6 0 = 73 ∧ data.getD 7 0 = 73 then some true
  else if data.getD 6 0 = 77 ∧ data.getD 7 0 = 77 then some false
  else none

/-- The freshly zero-initialized entry parser of exif_parse_from_segment
(`entry_parser_t p = {0}` plus the five explicitly assigned fields). -/
def segment_parser0 (data : List ℕ) (intel : Bool) (rec : exif_info) : entry_parser_t :=
  { data := data, bytes := data.length, tiff_header_start := 6, alignIntel := intel
    offs := 0, tag := 0, format := 0, length := 0, info := rec }

/-- The first-IFD offset computation `offs += first_ifd_offset - 4` where
`offs = 10` and the subtraction wraps as uint32. -/
def ifd0_offs (data : List ℕ) (intel : Bool) : ℕ :=
  (10 + (parse32 data 10 intel + 4294967292) % U32) % U32

/-- The complete IFD0 walk of exif_parse_from_segment: entry count read at
the first-IFD offset, parser seeded there, sub-IFD offsets initialized to
`bytes` (their "absent" value). -/
def segment_ifd0 (data : List ℕ) (intel : Bool) (rec : exif_info) :
    entry_parser_t × ℕ × ℕ :=
  ifd0_walk (parse16 data (ifd0_offs data intel) intel)
    (parser_init (segment_parser0 data intel rec) (ifd0_offs data intel + 2))
    data.length data.length

/-- exif_parse_from_segment: validate the preamble, byte-order marker and
TIFF magic, then walk IFD0 and the Exif/GPS sub-IFDs. -/
def exif_parse_from_segment (rec : exif_info) (data : List ℕ) : ℕ × exif_info :=
  let bytes := data.length
  if bytes < 6 then (EXIF_PARSE_ABSENT_DATA, rec)
  else if data.take 6 ≠ exifPreamble then (EXIF_PARSE_ABSENT_DATA, rec)
  else if bytes < 14 then (EXIF_PARSE_CORRUPT_DATA, rec)
  else
    match byteAlign data with
    | none => (EXIF_PARSE_UNKNOWN_BYTEALIGN, rec)
    | some intel =>
      if parse16 data 8 intel ≠ 0x2a then (EXIF_PARSE_CORRUPT_DATA, rec)
      else
        let offs := ifd0_offs data intel
        if bytes ≤ offs then (EXIF_PARSE_CORRUPT_DATA, rec)
        else if bytes < offs + 2 then (EXIF_PARSE_CORRUPT_DATA, rec)
        else
          let n := parse16 data offs intel
          if bytes < offs + 6 + 12 * n then (EXIF_PARSE_CORRUPT_DATA, rec)
          else
            let w := segment_ifd0 data intel rec
            let p1 := w.1
            let exifOff := w.2.1
            let gpsOff := w.2.2
            if (exifOff + 4) % U32 ≤ bytes then
              let n1 := parse16 data exifOff intel
              if bytes < exifOff + 6 + 12 * n1 then (EXIF_PARSE_CORRUPT_DATA, p1.info)
              else
                let p2 := exif_walk n1 (parser_init p1 (exifOff + 2))
                if (gpsOff + 4) % U32 ≤ bytes then
                  let n2 := parse16 data gpsOff intel
                  if bytes < gpsOff + 6 + 12 * n2 then (EXIF_PARSE_CORRUPT_DATA, p2.info)
                  else
                    let p3 := gps_walk n2 (parser_init p2 (gpsOff + 2))
                    (EXIF_PARSE_SUCCESS, geolocation_parse_coords p3.info)
                else (EXIF_PARSE_SUCCESS, p2.info)
            else
              if (gpsOff + 4) % U32 ≤ bytes then
                let n2 := parse16 data gpsOff intel
                if bytes < gpsOff + 6 + 12 * n2 then (EXIF_PARSE_CORRUPT_DATA, p1.info)
                else
                  let p3 := gps_walk n2 (parser_init p1 (gpsOff + 2))
                  (EXIF_PARSE_SUCCESS, geolocation_parse_coords p3.info)
              else (EXIF_PARSE_SUCCESS, p1.info)

/-- Streaming XML events delivered by the external yxml tokenizer to
`yxml_xmp` (attribute and processing-instruction events are ignored by the
source and omitted). -/
inductive xml_event where
  | elem_start (name : String)
  | content (data : List ℕ)
  | elem_end

/-- An XMP extraction rule (struct xml_npv_s); the target slot `v` of the C
struct is the index of the rule in the `npv` table. -/
structure xml_npv_t where
  n : String
  up : ℕ
  append : Bool
  p : Option String

set_option maxHeartbeats 1000000 in
/-- The rule table of parse_xmp_xml, in source order; the slot written by
rule `i` is `xmp i` of the record. -/
def npv : List xml_npv_t := [
  { n := "Iptc4xmpCore:CiAdrCity", up := 0, append := false, p := none },
  { n := "Iptc4xmpCore:CiAdrCtry", up := 0, append := false, p := none },
  { n := "Iptc4xmpCore:CiAdrExtadr", up := 0, append := false, p := none },
  { n := "Iptc4xmpCore:CiAdrPcode", up := 0, append := false, p := none },
  { n := "Iptc4xmpCore:CiAdrRegion", up := 0, append := false, p := none },
  { n := "Iptc4xmpCore:CiEmailWork", up := 0, append := false, p := none },
  { n := "Iptc4xmpCore:CiTelWork", up := 0, append := false, p := none },
  { n := "Iptc4xmpCore:CiUrlWork", up := 0, append := false, p := none },
  { n := "Iptc4xmpCore:IntellectualGenre", up := 0, append := false, p := none },
  { n := "Iptc4xmpCore:Location", up := 0, append := false, p := none },
  { n := "Iptc4xmpCore:Scene", up := 0, append := false, p := none },
  { n := "Iptc4xmpCore:SubjectCode", up := 0, append := false, p := none },
  { n := "Iptc4xmpExt:AOCopyrightNotice", up := 0, append := false,
    p := some ("Iptc4xmpExt:ArtworkOrObject") },
  { n := "Iptc4xmpExt:AOCreator", up := 0, append := false,
    p := some ("Iptc4xmpExt:ArtworkOrObject") },
  { n := "Iptc4xmpExt:AOCircaDateCreated", up := 0, append := false, p := none },
  { n := "Iptc4xmpExt:AOContentDescription", up := 2, append := false, p := none },
  { n := "Iptc4xmpExt:AOContributionDescription", up := 2, append := false, p := none },
  { n := "Iptc4xmpExt:AOCreatorId", up := 2, append := false, p := none },
  { n := "Iptc4xmpExt:AOCurrentCopyrightOwnerId", up := 0, append := false, p := none },
  { n := "Iptc4xmpExt:AOCurrentCopyrightOwnerName", up := 0, append := false, p := none },
  { n := "Iptc4xmpExt:AOCurrentLicensorId", up := 0, append := false, p := none },
  { n := "Iptc4xmpExt:AOCurrentLicensorName", up := 0, append := false, p := none },
  { n := "Iptc4xmpExt:AOPhysicalDescription", up := 2, append := false, p := none },
  { n := "Iptc4xmpExt:AOSource", up := 0, append := false, p := none },
  { n := "Iptc4xmpExt:AOSourceInvNo", up := 0, append := false, p := none },
  { n := "Iptc4xmpExt:AOSourceInvURL", up := 0, append := false, p := none },
  { n := "Iptc4xmpExt:AOStylePeriod", up := 2, append := false, p := none },
  { n := "Iptc4xmpExt:AOTitle", up := 2, append := false, p := none },
  { n := "Iptc4xmpExt:DigImageGUID", up := 0, append := false, p := none },
  { n := "Iptc4xmpExt:EmbdEncRightsExpr", up := 2, append := false, p := none },
  { n := "Iptc4xmpExt:DigitalSourceType", up := 0, append := false, p := none },
  { n := "Iptc4xmpExt:Event", up := 2, append := false, p := none },
  { n := "Iptc4xmpExt:EventId", up := 2, append := false, p := none },
  { n := "Iptc4xmpExt:LinkedRightsExpr", up := 0, append := false,
    p := some ("Iptc4xmpExt:LinkedEncRightsExpr") },
  { n := "Iptc4xmpExt:RightsExprEncType", up := 0, append := false,
    p := some ("Iptc4xmpExt:LinkedEncRightsExpr") },
  { n := "Iptc4xmpExt:RightsExprLangId", up := 0, append := false,
    p := some ("Iptc4xmpExt:LinkedEncRightsExpr") },
  { n := "Iptc4xmpExt:City", up := 0, append := false,
    p := some ("Iptc4xmpExt:LocationCreated") },
  { n := "Iptc4xmpExt:CountryCode", up := 0, append := false,
    p := some ("Iptc4xmpExt:LocationCreated") },
  { n := "Iptc4xmpExt:CountryName", up := 0, append := false,
    p := some ("Iptc4xmpExt:LocationCreated") },
  { n := "Iptc4xmpExt:ProvinceState", up := 0, append := false,
    p := some ("Iptc4xmpExt:LocationCreated") },
  { n := "Iptc4xmpExt:Sublocation", up := 0, append := false,
    p := some ("Iptc4xmpExt:LocationCreated") },
  { n := "Iptc4xmpExt:WorldRegion", up := 0, append := false,
    p := some ("Iptc4xmpExt:LocationCreated") },
  { n := "Iptc4xmpExt:City", up := 0, append := false,
    p := some ("Iptc4xmpExt:LocationShown") },
  { n := "Iptc4xmpExt:CountryCode", up := 0, append := false,
    p := some ("Iptc4xmpExt:LocationShown") },
  { n := "Iptc4xmpExt:CountryName", up := 0, append := false,
    p := some ("Iptc4xmpExt:LocationShown") },
  { n := "Iptc4xmpExt:ProvinceState", up := 0, append := false,
    p := some ("Iptc4xmpExt:LocationShown") },
  { n := "Iptc4xmpExt:Sublocation", up := 0, append := false,
    p := some ("Iptc4xmpExt:LocationShown") },
  { n := "Iptc4xmpExt:WorldRegion", up := 0, append := false,
    p := some ("Iptc4xmpExt:LocationShown") },
  { n := "Iptc4xmpExt:MaxAvailHeight", up := 0, append := false, p := none },
  { n := "Iptc4xmpExt:MaxAvailWidth", up := 0, append := false, p := none },
  { n := "Iptc4xmpExt:ModelAge", up := 0, append := false, p := none },
  { n := "Iptc4xmpExt:PersonCharacteristic", up := 7, append := true,
    p := some ("Iptc4xmpExt:PersonInImageWDetails") },
  { n := "Iptc4xmpExt:PersonDescription", up := 2, append := true,
    p := some ("Iptc4xmpExt:PersonInImageWDetails") },
  { n := "Iptc4xmpExt:PersonId", up := 2, append := true,
    p := some ("Iptc4xmpExt:PersonInImageWDetails") },
  { n := "Iptc4xmpExt:PersonName", up := 2, append := true,
    p := some ("Iptc4xmpExt:PersonInImageWDetails") },
  { n := "Iptc4xmpExt:ProductDescription", up := 2, append := true,
    p := some ("Iptc4xmpExt:ProductInImage") },
  { n := "Iptc4xmpExt:ProductGTIN", up := 0, append := false,
    p := some ("Iptc4xmpExt:ProductInImage") },
  { n := "Iptc4xmpExt:ProductId", up := 0, append := false,
    p := some ("Iptc4xmpExt:ProductInImage") },
  { n := "Iptc4xmpExt:ProductName", up := 2, append := true,
    p := some ("Iptc4xmpExt:ProductInImage") },
  { n := "Iptc4xmpExt:OrganisationInImageCode", up := 2, append := false, p := none },
  { n := "Iptc4xmpExt:OrganisationInImageName", up := 2, append := false, p := none },
  { n := "Iptc4xmpExt:PersonInImage", up := 2, append := false, p := none },
  { n := "Iptc4xmpExt:PersonCharacteristic", up := 2, append := false, p := none },
  { n := "Iptc4xmpExt:PersonDescription", up := 2, append := false, p := none },
  { n := "Iptc4xmpExt:RegItemId", up := 0, append := false, p := none },
  { n := "Iptc4xmpExt:RegOrgId", up := 0, append := false, p := none },
  { n := "Iptc4xmpExt:CvId", up := 0, append := false,
    p := some ("Iptc4xmpExt:AboutCvTerm") },
  { n := "Iptc4xmpExt:CvTermId", up := 0, append := false,
    p := some ("Iptc4xmpExt:AboutCvTerm") },
  { n := "Iptc4xmpExt:CvTermName", up := 2, append := true,
    p := some ("Iptc4xmpExt:AboutCvTerm") },
  { n := "Iptc4xmpExt:CvTermRefinedAbout", up := 0, append := false,
    p := some ("Iptc4xmpExt:AboutCvTerm") },
  { n := "dc:creator", up := 2, append := true, p := none },
  { n := "dc:date", up := 2, append := true, p := none },
  { n := "dc:format", up := 0, append := false, p := none },
  { n := "dc:description", up := 2, append := true, p := none },
  { n := "dc:rights", up := 2, append := true, p := none },
  { n := "dc:subject", up := 2, append := true, p := none },
  { n := "dc:title", up := 2, append := true, p := none },
  { n := "aux:Lens", up := 0, append := false, p := none },
  { n := "exif:GPSAltitude", up := 0, append := false, p := none },
  { n := "exif:GPSAltitudeRef", up := 0, append := false, p := none },
  { n := "exif:GPSLatitude", up := 0, append := false, p := none },
  { n := "exif:GPSLongitude", up := 0, append := false, p := none },
  { n := "xmp:CreateDate", up := 0, append := false, p := none },
  { n := "xmp:CreatorTool", up := 0, append := false, p := none },
  { n := "xmp:MetadataDate", up := 0, append := false, p := none },
  { n := "xmp:ModifyDate", up := 0, append := false, p := none },
  { n := "xmp:Rating", up := 0, append := false, p := none },
  { n := "Iptc4xmpExt:AOCopyrightNotice", up := 0, append := false, p := none },
  { n := "Iptc4xmpExt:AOCreator", up := 0, append := false, p := none },
  { n := "Iptc4xmpExt:AODateCreated", up := 0, append := false, p := none },
  { n := "Iptc4xmpExt:AddlModelInfo", up := 0, append := false, p := none },
  { n := "Iptc4xmpCore:CountryCode", up := 0, append := false, p := none }]

/-- Rule lookup with the all-defaults rule for out-of-range indices. -/
def npv_get (i : ℕ) : xml_npv_t := npv.getD i { n := "", up := 0, append := false, p := none }

/-- The XML extraction context (struct xml_context_s).  The stack is held
most-recent first; `top` of the C code is `stack.length`.  The declared
bound of the C array is 64 entries. -/
structure xml_context_t where
  ei : exif_info
  stack : List String
  index : Int

/-- yxml_parent: `stack[top - 1 - up]` (the up-th enclosing open element),
or "" when out of range. -/
def yxml_parent (ctx : xml_context_t) (up : ℕ) : String := ctx.stack.getD up ""

/-- yxml_strequ: length + memcmp equality. -/
def yxml_strequ (a b : String) : Bool := a == b

/-- The `isspace` predicate of `<ctype.h>` for the default locale. -/
def isspace_byte (c : ℕ) : Bool := if c = 32 ∨ (9 ≤ c ∧ c ≤ 13) then true else false

/-- First byte of an XMP slot value (the C reads `*v[0]`). -/
def slot_first_byte (ei : exif_info) : XmpVal → ℕ
  | .ptr q => ei.arena q
  | .sentinel => 0

/-- The rule-matching loop of yxml_element_start: scan the table (given as
the remaining rules, `i` being the index of the first of them) while no
capture is active; a match either starts a capture (fresh slot or
NUL-separated append) or, when the append separator does not fit in the
arena, sets the not-enough-memory flag and breaks. -/
def xmp_match_rules : List xml_npv_t → ℕ → xml_context_t → xml_context_t
  | [], _, ctx => ctx
  | rule :: rest, i, ctx =>
    if ctx.index < 0 then
      let up := yxml_parent ctx rule.up
      let top := yxml_parent ctx 0
      if yxml_strequ up rule.n ∨ yxml_strequ top rule.n then
        let has_parent :=
          match rule.p with
          | none => true
          | some par => ctx.stack.tail.any (fun s => yxml_strequ s par)
        if has_parent then
          let slot := ctx.ei.xmp i
          let fb : ℕ :=
            match slot with
            | none => 0
            | some v => slot_first_byte ctx.ei v
          if rule.append = false ∨ slot = none ∨ fb = 0 then
            { ctx with
              ei := { ctx.ei with
                next := ctx.ei.next + 1
                xmp := fun j => if j = i then some (XmpVal.ptr (ctx.ei.next + 1))
                  else ctx.ei.xmp j }
              index := (i : Int) }
          else if 65536 ≤ ctx.ei.next + 3 then
            { ctx with ei := { ctx.ei with not_enough_memory := true } }
          else
            { ctx with
              ei := { ctx.ei with
                arena := writeBytes ctx.ei.arena ctx.ei.next [0, 0]
                next := ctx.ei.next + 1 }
              index := (i : Int) }
        else xmp_match_rules rest (i + 1) ctx
      else xmp_match_rules rest (i + 1) ctx
    else ctx

/-- yxml_element_start: refuse to push on a full stack (or after memory
exhaustion), otherwise push the name and scan the rule table. -/
def yxml_element_start (ctx : xml_context_t) (name : String) : xml_context_t :=
  if ctx.ei.not_enough_memory = true ∨ 64 ≤ ctx.stack.length then
    { ctx with ei := { ctx.ei with not_enough_memory := true } }
  else
    xmp_match_rules npv 0 { ctx with stack := name :: ctx.stack }

/-- yxml_content: while a capture is active, strip leading whitespace when
nothing has been appended at the cursor yet, then append the chunk and a
terminating NUL (the source performs the copy even when it has just set the
not-enough-memory flag). -/
def yxml_content (ctx : xml_context_t) (chunk : List ℕ) : xml_context_t :=
  if ctx.ei.not_enough_memory = true then ctx
  else if 0 ≤ ctx.index then
    let raw := chunk.takeWhile (fun c => c ≠ 0)
    let s := if ctx.ei.arena ctx.ei.next = 0 then raw.dropWhile (fun c => isspace_byte c) else raw
    let k := s.length
    let ei1 :=
      if 65536 ≤ ctx.ei.next + k + 1 then { ctx.ei with not_enough_memory := true }
      else ctx.ei
    { ctx with ei := { ei1 with
        arena := writeBytes ei1.arena ei1.next (s ++ [0])
        next := ei1.next + k } }
  else ctx

/-- yxml_element_end: close the capture when the top of the stack is the
matched rule's own tag name, and pop.  The C decrements `top`
unconditionally under `assert(top > 0)`; an end event on an empty stack is
unreachable from a well-formed tokenizer and leaves the empty stack here. -/
def yxml_element_end (ctx : xml_context_t) : xml_context_t :=
  if ctx.ei.not_enough_memory = true then ctx
  else
    let ctx1 :=
      if 0 ≤ ctx.index then
        let rule := npv_get ctx.index.toNat
        { ctx with
          index := if yxml_strequ (yxml_parent ctx 0) rule.n then -1 else ctx.index
          ei := { ctx.ei with next := ctx.ei.next + 1 } }
      else ctx
    { ctx1 with stack := ctx1.stack.tail }

/-- yxml_xmp: the event dispatcher. -/
def yxml_xmp (ctx : xml_context_t) : xml_event → xml_context_t
  | .elem_start n => yxml_element_start ctx n
  | .content d => yxml_content ctx d
  | .elem_end => yxml_element_end ctx

/-- The event-processing loop of parse_xmp_xml. -/
def xmp_run : List xml_event → xml_context_t → xml_context_t
  | [], ctx => ctx
  | e :: es, ctx => xmp_run es (yxml_xmp ctx e)

/-- The completion loop of parse_xmp_xml: every rule slot still null is
assigned the static empty-list sentinel `"\x00\x00"`. -/
def xmp_fill (ei : exif_info) : exif_info :=
  { ei with xmp := fun i =>
      if i < npv.length ∧ ei.xmp i = none then some XmpVal.sentinel else ei.xmp i }

/-- The external streaming XML tokenizer: for a byte string it yields the
delivered element/content events and the final `yxml_eof` verdict. -/
def XmpTokenizer : Type := List ℕ → List xml_event × Bool

/-- parse_xmp_xml: reset the memory flag, drive the tokenizer events through
the callbacks, then assign the empty-list sentinel to every untouched rule
slot; the result code is Success exactly when `yxml_eof` reported a
well-formed document.  (parse_xmp_legacy is compiled out in the source and
returns Success without touching the record.) -/
def parse_xmp_xml (tok : XmpTokenizer) (ei : exif_info) (xml : List ℕ) : ℕ × exif_info :=
  let te := tok xml
  let ctx0 : xml_context_t :=
    { ei := { ei with not_enough_memory := false }, stack := [], index := -1 }
  let ctx1 := xmp_run te.1 ctx0
  (if te.2 = true then EXIF_PARSE_SUCCESS else EXIF_PARSE_CORRUPT_DATA, xmp_fill ctx1.ei)

/-- The 29-byte XMP namespace preamble "http://ns.adobe.com/xap/1.0/\0". -/
def xmpPreamble : List ℕ :=
  [104, 116, 116, 112, 58, 47, 47, 110, 115, 46, 97, 100, 111, 98, 101,
   46, 99, 111, 109, 47, 120, 97, 112, 47, 49, 46, 48, 47, 0]

/-- parse_xmp: check the namespace preamble, then hand the XML text to the
extractor. -/
def parse_xmp (tok : XmpTokenizer) (ei : exif_info) (buf : List ℕ) : ℕ × exif_info :=
  if buf.length < 29 then (EXIF_PARSE_ABSENT_DATA, ei)
  else if buf.take 29 ≠ xmpPreamble then (EXIF_PARSE_ABSENT_DATA, ei)
  else if buf.length ≤ 29 then (EXIF_PARSE_CORRUPT_DATA, ei)
  else parse_xmp_xml tok ei (buf.drop 29)

/-- The fill-byte absorption loop of exif_parse_from_stream: `pos` is the
position of the current marker candidate, `it` the stream cursor; a run of
0xFF bytes is skipped while more input remains.  The loop consumes one
stream byte per step, so `data.length + 1` units of fuel (what `skipFF`
passes) never run out. -/
def skipFF_go : ℕ → List ℕ → ℕ → ℕ → ℕ × ℕ
  | 0, data, pos, it => (data.getD pos 0, it)
  | fuel + 1, data, pos, it =>
    let m := data.getD pos 0
    if m = 255 then
      if it + 1 ≤ data.length then skipFF_go fuel data it (it + 1) else (m, it)
    else (m, it)

/-- The fill-byte absorption loop with sufficient fuel. -/
def skipFF (data : List ℕ) (pos it : ℕ) : ℕ × ℕ :=
  skipFF_go (data.length + 1) data pos it

/-- The marker scan loop of exif_parse_from_stream, with explicit fuel (each
iteration consumes at least two stream bytes, so `data.length + 1` units of
fuel never run out; the fuel-0 result mirrors the stream-end return).  The
result carries the code, the record, and the final stream cursor. -/
def scanLoop (tok : XmpTokenizer) (data : List ℕ) :
    ℕ → ℕ → ℕ → exif_info → ℕ × exif_info × ℕ
  | 0, it, apps1, rec =>
    (if apps1 &&& EXIF_FIELD_ALL ≠ 0 then EXIF_PARSE_SUCCESS else EXIF_PARSE_ABSENT_DATA,
      rec, it)
  | fuel + 1, it, apps1, rec =>
    if data.length < it + 2 then
      (if apps1 &&& EXIF_FIELD_ALL ≠ 0 then EXIF_PARSE_SUCCESS else EXIF_PARSE_ABSENT_DATA,
        rec, it)
    else if data.getD it 0 ≠ 255 then
      (if apps1 &&& EXIF_FIELD_ALL ≠ 0 then EXIF_PARSE_SUCCESS else EXIF_PARSE_ABSENT_DATA,
        rec, it + 2)
    else
      let mj := skipFF data (it + 1) (it + 2)
      let marker := mj.1
      let j := mj.2
      if marker = 0 ∨ marker = 1 ∨ marker = 255 ∨ (208 ≤ marker ∧ marker ≤ 216) then
        scanLoop tok data fuel j apps1 rec
      else if marker = 218 ∨ marker = 217 then
        (if apps1 &&& EXIF_FIELD_ALL ≠ 0 then EXIF_PARSE_SUCCESS else EXIF_PARSE_ABSENT_DATA,
          rec, j)
      else if marker = 225 then
        if data.length < j + 2 then
          (if apps1 &&& EXIF_FIELD_ALL ≠ 0 then EXIF_PARSE_SUCCESS
            else EXIF_PARSE_INVALID_JPEG, rec, j)
        else
          let sb := parse16 data j false
          if sb ≤ 2 then
            (if apps1 &&& EXIF_FIELD_ALL ≠ 0 then EXIF_PARSE_SUCCESS
              else EXIF_PARSE_INVALID_JPEG, rec, j + 2)
          else if data.length < j + 2 + (sb - 2) then
            (if apps1 &&& EXIF_FIELD_ALL ≠ 0 then EXIF_PARSE_SUCCESS
              else EXIF_PARSE_INVALID_JPEG, rec, j + 2)
          else
            let payload := (data.drop (j + 2)).take (sb - 2)
            let itEnd := j + 2 + (sb - 2)
            let rec1 := { rec with has_app1 := true }
            let res := exif_parse_from_segment rec1 payload
            if res.1 = EXIF_PARSE_ABSENT_DATA then
              let xres := parse_xmp tok res.2 payload
              if xres.1 = EXIF_PARSE_ABSENT_DATA then
                scanLoop tok data fuel itEnd apps1 xres.2
              else if xres.1 = EXIF_PARSE_SUCCESS then
                if apps1 ||| EXIF_FIELD_XMP = EXIF_FIELD_ALL then
                  (EXIF_PARSE_SUCCESS, xres.2, itEnd)
                else scanLoop tok data fuel itEnd (apps1 ||| EXIF_FIELD_XMP) xres.2
              else
                (if apps1 &&& EXIF_FIELD_ALL ≠ 0 then EXIF_PARSE_SUCCESS else xres.1,
                  xres.2, itEnd)
            else if res.1 = EXIF_PARSE_SUCCESS then
              if apps1 ||| EXIF_FIELD_EXIF = EXIF_FIELD_ALL then
                (EXIF_PARSE_SUCCESS, res.2, itEnd)
              else scanLoop tok data fuel itEnd (apps1 ||| EXIF_FIELD_EXIF) res.2
            else
              (if apps1 &&& EXIF_FIELD_ALL ≠ 0 then EXIF_PARSE_SUCCESS else res.1,
                res.2, itEnd)
      else
        if data.length < j + 2 then
          (if apps1 &&& EXIF_FIELD_ALL ≠ 0 then EXIF_PARSE_SUCCESS
            else EXIF_PARSE_INVALID_JPEG, rec, j)
        else
          let sb := parse16 data j false
          if sb ≤ 2 ∨ data.length < j + 2 + (sb - 2) then
            (if apps1 &&& EXIF_FIELD_ALL ≠ 0 then EXIF_PARSE_SUCCESS
              else EXIF_PARSE_INVALID_JPEG, rec, j + 2)
          else scanLoop tok data fuel (j + 2 + (sb - 2)) apps1 rec

/-- exif_parse_from_stream: clear the record, check the JPEG SOI signature,
then scan the marker segments.  The local presence bitmask `apps1` is
initialized from the record's `Fields` (which `exif_clear` has just set to
`EXIF_FIELD_NA`); the source never stores it back into the record. -/
def exif_parse_from_stream (tok : XmpTokenizer) (rec : exif_info) (data : List ℕ) :
    ℕ × exif_info × ℕ :=
  let rec0 := exif_clear rec
  if data.length < 2 then (EXIF_PARSE_INVALID_JPEG, rec0, 0)
  else if data.getD 0 0 ≠ 255 ∨ data.getD 1 0 ≠ 216 then
    (EXIF_PARSE_INVALID_JPEG, rec0, 2)
  else scanLoop tok data (data.length + 1) 2 rec0.Fields rec0

/-- exif_parse_from_memory: the in-memory buffer stream. -/
def exif_parse_from_memory (tok : XmpTokenizer) (rec : exif_info) (data : List ℕ) :
    ℕ × exif_info × ℕ :=
  exif_parse_from_stream tok rec data

/-- exif_from_memory: the public entry point. -/
def exif_from_memory (tok : XmpTokenizer) (rec : exif_info) (data : List ℕ) :
    ℕ × exif_info × ℕ :=
  exif_parse_from_memory tok rec data

/-! Test fixtures: a default record value and a trivial tokenizer, used to
instantiate the theorems on concrete inputs. -/

/-- An all-defaults record value (the C callers zero-initialize the struct
they pass in; `exif_clear` is applied by the parse entry points anyway). -/
def ei0 : exif_info :=
  { has_app1 := false, has_xmp := false, not_enough_memory := false, dump := false
    arena := fun _ => 0, next := 0
    Fields := 0, ExifVersion := 0, ImageWidth := 0, ImageHeight := 0
    RelatedImageWidth := 0, RelatedImageHeight := 0
    ImageDescription := [], Artist := [], UserComment := [], Make := []
    Model := [], SerialNumber := [], Orientation := 0
    XResolution := 0, YResolution := 0, ResolutionUnit := 0, BitsPerSample := 0
    Software := [], DateTime := [], DateTimeOriginal := [], DateTimeDigitized := []
    SubSecTimeOriginal := [], Copyright := [], OffsetTimeOriginal := []
    FlashPixVersion := 0, ExposureTime := 0, FNumber := 0, ExposureProgram := 0
    ColorSpace := 0, SceneType := 0, ExposureMode := 0, WhiteBalance := 0
    CaptureType := 0, ComponentConfig := 0, YCCPositioning := 0, SensingMethod := 0
    ISOSpeedRatings := 0, ShutterSpeedValue := 0, MaxAperture := 0
    ApertureValue := 0, BrightnessValue := 0, ExposureBiasValue := 0
    SubjectDistance := 0, FocalLength := 0, Flash := 0, MeteringMode := 0
    LightSource := 0, ProjectionType := 0, SubjectAreas := 0
    SubjectArea := fun _ => 0
    Calibration := { FocalLength := 0, OpticalCenterX := 0, OpticalCenterY := 0 }
    LensInfo :=
      { FStopMin := 0, FStopMax := 0, FocalLengthMin := 0, FocalLengthMax := 0
        DigitalZoomRatio := 0, FocalLengthIn35mm := 0
        FocalPlaneXResolution := 0, FocalPlaneYResolution := 0
        FocalPlaneResolutionUnit := 0, Make := [], Model := [] }
    GeoLocation :=
      { Latitude := 0, Longitude := 0, Altitude := 0, AltitudeRef := 0
        RelativeAltitude := 0, RollDegree := 0, PitchDegree := 0, YawDegree := 0
        SpeedX := 0, SpeedY := 0, SpeedZ := 0, AccuracyXY := 0, AccuracyZ := 0
        GPSDOP := 0, GPSDifferential := 0, GPSMapDatum := [], GPSTimeStamp := []
        GPSDateStamp := []
        LatComponents := { degrees := 0, minutes := 0, seconds := 0, direction := 0 }
        LonComponents := { degrees := 0, minutes := 0, seconds := 0, direction := 0 } }
    GPano := { PosePitchDegrees := 0, PoseRollDegrees := 0 }
    MicroVideo := { HasMicroVideo := 0, MicroVideoVersion := 0, MicroVideoOffset := 0 }
    xmp := fun _ => none }

/-- A tokenizer that delivers no events and reports a well-formed document
(the behavior of yxml on content-free input). -/
def tokEmpty : XmpTokenizer := fun _ => ([], true)

/-- Claim C5: for both byte orders and both rational variants, an 8-byte
rational window whose denominator word is zero decodes to exactly 0 (never
an error, NaN or infinity — the division is never attempted), and a nonzero
denominator decodes to numerator/denominator, both words reinterpreted as
signed 32-bit first in the signed variant. -/
theorem C5_parse_rational_zero_denominator (data : List ℕ) (pos : ℕ)
    (intel isSigned : Bool) :
    (parse32 data (pos + 4) intel = 0 → parse_rational data pos intel isSigned = 0) ∧
    (parse32 data (pos + 4) intel ≠ 0 →
      parse_rational data pos intel isSigned =
        if isSigned then
          (toInt32 (parse32 data pos intel) : ℚ) / (toInt32 (parse32 data (pos + 4) intel) : ℚ)
        else (parse32 data pos intel : ℚ) / (parse32 data (pos + 4) intel : ℚ)) := by
  constructor
  · intro h
    simp [parse_rational, h]
  · intro h
    simp [parse_rational, h]

/-- Witness for C5 at concrete inputs: an unsigned and a signed rational with
denominator word 0 decode to 0, and a nonzero denominator divides. -/
theorem C5_parse_rational_zero_denominator_witness :
    parse32 [7, 0, 0, 0, 0, 0, 0, 0] 4 true = 0 ∧
    parse_rational [7, 0, 0, 0, 0, 0, 0, 0] 0 true false = 0 ∧
    parse_rational [7, 0, 0, 0, 0, 0, 0, 0] 0 true true = 0 ∧
    parse_rational [3, 0, 0, 0, 2, 0, 0, 0] 0 true false = 3 / 2 := by
  refine ⟨by decide, ?_, ?_, ?_⟩
  · exact (C5_parse_rational_zero_denominator _ 0 true false).1 (by decide)
  · exact (C5_parse_rational_zero_denominator _ 0 true true).1 (by decide)
  · have h := (C5_parse_rational_zero_denominator [3, 0, 0, 0, 2, 0, 0, 0] 0 true false).2
      (by decide)
    rw [h]
    norm_num [parse32, toInt32]

/-- Fixture for the C6 latitude example: degrees 10, minutes 30, seconds 0,
hemisphere 'S'. -/
def eiGpsLat : exif_info :=
  { exif_clear ei0 with
    GeoLocation := { (exif_clear ei0).GeoLocation with
      LatComponents := { degrees := 10, minutes := 30, seconds := 0, direction := 83 } } }

/-- Fixture for the C6 altitude example: altitude 100, reference byte 1. -/
def eiGpsAlt : exif_info :=
  { exif_clear ei0 with
    GeoLocation := { (exif_clear ei0).GeoLocation with Altitude := 100, AltitudeRef := 1 } }

/-- Latitude characterization of the GPS normalizer. -/
theorem geo_latitude_eq (ei : exif_info) :
    (geolocation_parse_coords ei).GeoLocation.Latitude =
      if ei.GeoLocation.LatComponents.degrees ≠ dblMax ∨
          ei.GeoLocation.LatComponents.minutes ≠ 0 ∨
          ei.GeoLocation.LatComponents.seconds ≠ 0 then
        (if ei.GeoLocation.LatComponents.direction = 83 then
          -(ei.GeoLocation.LatComponents.degrees + ei.GeoLocation.LatComponents.minutes / 60 +
            ei.GeoLocation.LatComponents.seconds / 3600)
        else ei.GeoLocation.LatComponents.degrees + ei.GeoLocation.LatComponents.minutes / 60 +
          ei.GeoLocation.LatComponents.seconds / 3600)
      else ei.GeoLocation.Latitude := by
  simp only [geolocation_parse_coords, apply_ite Geolocation_t.Latitude,
    apply_ite Geolocation_t.LatComponents, ite_self]

/-- Longitude characterization of the GPS normalizer. -/
theorem geo_longitude_eq (ei : exif_info) :
    (geolocation_parse_coords ei).GeoLocation.Longitude =
      if ei.GeoLocation.LonComponents.degrees ≠ dblMax ∨
          ei.GeoLocation.LonComponents.minutes ≠ 0 ∨
          ei.GeoLocation.LonComponents.seconds ≠ 0 then
        (if ei.GeoLocation.LonComponents.direction = 87 then
          -(ei.GeoLocation.LonComponents.degrees + ei.GeoLocation.LonComponents.minutes / 60 +
            ei.GeoLocation.LonComponents.seconds / 3600)
        else ei.GeoLocation.LonComponents.degrees + ei.GeoLocation.LonComponents.minutes / 60 +
          ei.GeoLocation.LonComponents.seconds / 3600)
      else ei.GeoLocation.Longitude := by
  simp only [geolocation_parse_coords, apply_ite Geolocation_t.Longitude,
    apply_ite Geolocation_t.LonComponents, ite_self]

/-- Altitude characterization of the GPS normalizer. -/
theorem geo_altitude_eq (ei : exif_info) :
    (geolocation_parse_coords ei).GeoLocation.Altitude =
      if ei.GeoLocation.Altitude ≠ dblMax ∧ ei.GeoLocation.AltitudeRef = 1 then
        -ei.GeoLocation.Altitude
      else ei.GeoLocation.Altitude := by
  simp only [geolocation_parse_coords, apply_ite Geolocation_t.Altitude,
    apply_ite Geolocation_t.AltitudeRef, ite_self]

/-- Claim C6: for each axis with decoded components not all at the absent
defaults, the normalizer stores degrees + minutes/60 + seconds/3600, negated
exactly when the hemisphere byte is 'S' (latitude, 83) or 'W' (longitude,
87); the altitude is negated exactly when it is present and the
altitude-reference byte is 1.  The claim's concrete instances are included:
10°30'0''S gives −10.5 and AltitudeRef 1 with altitude 100 gives −100. -/
theorem C6_gps_coordinate_normalization (ei : exif_info) :
    ((geolocation_parse_coords ei).GeoLocation.Latitude =
      if ei.GeoLocation.LatComponents.degrees ≠ dblMax ∨
          ei.GeoLocation.LatComponents.minutes ≠ 0 ∨
          ei.GeoLocation.LatComponents.seconds ≠ 0 then
        (if ei.GeoLocation.LatComponents.direction = 83 then
          -(ei.GeoLocation.LatComponents.degrees + ei.GeoLocation.LatComponents.minutes / 60 +
            ei.GeoLocation.LatComponents.seconds / 3600)
        else ei.GeoLocation.LatComponents.degrees + ei.GeoLocation.LatComponents.minutes / 60 +
          ei.GeoLocation.LatComponents.seconds / 3600)
      else ei.GeoLocation.Latitude) ∧
    ((geolocation_parse_coords ei).GeoLocation.Longitude =
      if ei.GeoLocation.LonComponents.degrees ≠ dblMax ∨
          ei.GeoLocation.LonComponents.minutes ≠ 0 ∨
          ei.GeoLocation.LonComponents.seconds ≠ 0 then
        (if ei.GeoLocation.LonComponents.direction = 87 then
          -(ei.GeoLocation.LonComponents.degrees + ei.GeoLocation.LonComponents.minutes / 60 +
            ei.GeoLocation.LonComponents.seconds / 3600)
        else ei.GeoLocation.LonComponents.degrees + ei.GeoLocation.LonComponents.minutes / 60 +
          ei.GeoLocation.LonComponents.seconds / 3600)
      else ei.GeoLocation.Longitude) ∧
    ((geolocation_parse_coords ei).GeoLocation.Altitude =
      if ei.GeoLocation.Altitude ≠ dblMax ∧ ei.GeoLocation.AltitudeRef = 1 then
        -ei.GeoLocation.Altitude
      else ei.GeoLocation.Altitude) ∧
    (geolocation_parse_coords eiGpsLat).GeoLocation.Latitude = -(21 / 2) ∧
    (geolocation_parse_coords eiGpsAlt).GeoLocation.Altitude = -100 := by
  refine ⟨geo_latitude_eq ei, geo_longitude_eq ei, geo_altitude_eq ei, ?_, ?_⟩
  · rw [geo_latitude_eq]
    have h10 : (10 : ℚ) ≠ dblMax := by norm_num [dblMax]
    simp only [eiGpsLat, exif_clear, ei0]
    norm_num [h10]
  · rw [geo_altitude_eq]
    have h100 : (100 : ℚ) ≠ dblMax := by norm_num [dblMax]
    simp only [eiGpsAlt, exif_clear, ei0]
    norm_num [h100]

/-- Claim C4 (code bug): the arena-capacity guard of parse_string compares
cursor + capacity (`next - strings + sizeof(strings)`) against the needed
`length + 1`, so with 3 bytes of arena remaining a 4-character inline string
is not left absent: the bytes are stored (past the arena end — an
out-of-bounds write in C, the cursor moves to 65538 > 65536) and the
not-enough-memory flag stays false. -/
theorem C4_arena_guard_never_fires :
    (parse_string (segment_parser0 [] true { exif_clear ei0 with next := 65533 })
        [] 4 1145258561 6 0 true).1 = [65, 66, 67, 68] ∧
    (parse_string (segment_parser0 [] true { exif_clear ei0 with next := 65533 })
        [] 4 1145258561 6 0 true).2.next = 65538 ∧
    65536 < (parse_string (segment_parser0 [] true { exif_clear ei0 with next := 65533 })
        [] 4 1145258561 6 0 true).2.next ∧
    (parse_string (segment_parser0 [] true { exif_clear ei0 with next := 65533 })
        [] 4 1145258561 6 0 true).2.not_enough_memory = false := by
  decide

/-- Concrete well-formed DJI MakerNote: the outer entry (tag 0x927C, format
7, declared length 86, value offset 6) is followed by its sub-IFD at TIFF
offset 12: entry count 7, a first entry of tag 1 holding the string "DJI",
and six float entries for tags 3, 4, 5, 9, 10, 11 (value 1.5). -/
def c7_data : List ℕ :=
  [124, 146, 7, 0, 86, 0, 0, 0, 6, 0, 0, 0] ++
  [7, 0] ++
  [1, 0, 2, 0, 4, 0, 0, 0, 68, 74, 73, 0] ++
  [3, 0, 11, 0, 1, 0, 0, 0, 0, 0, 192, 63] ++
  [4, 0, 11, 0, 1, 0, 0, 0, 0, 0, 192, 63] ++
  [5, 0, 11, 0, 1, 0, 0, 0, 0, 0, 192, 63] ++
  [9, 0, 11, 0, 1, 0, 0, 0, 0, 0, 192, 63] ++
  [10, 0, 11, 0, 1, 0, 0, 0, 0, 0, 192, 63] ++
  [11, 0, 11, 0, 1, 0, 0, 0, 0, 0, 192, 63]

/-- The parser state at which the Exif dispatcher hands the c7 entry to the
MakerNote decoder (Make already decoded as "DJI"). -/
def c7_state : entry_parser_t :=
  { data := c7_data, bytes := 98, tiff_header_start := 6, alignIntel := true
    offs := 0, tag := 37500, format := 7, length := 86
    info := { exif_clear ei0 with Make := [68, 74, 73] } }

/-- Claim C7 (code bug): on a well-formed DJI MakerNote — Make is "DJI", the
sub-IFD at the entry's offset declares 7 entries (which fits the declared
length: 2 + 12·7 ≤ 86), its first entry is tag 1 with the string "DJI", and
the telemetry tags are floats — the decoder still leaves all six telemetry
fields at the DBL_MAX sentinel: it reads the sub-IFD entry count from the
outer entry's own tag bytes (0x927C = 37500), so its bound check
2 + 12·37500 ≤ declared length fails for every well-formed note. -/
theorem C7_maker_note_telemetry_never_populated :
    strcaseeq c7_state.info.Make [68, 74, 73] = true ∧
    parse16 c7_data 12 true = 7 ∧
    2 + 12 * 7 ≤ c7_state.length ∧
    parse16 c7_data 14 true = 1 ∧
    parse16 c7_data c7_state.offs true = 37500 ∧
    (exif_parse_ifd_maker_note c7_state).info.GeoLocation.SpeedX = dblMax ∧
    (exif_parse_ifd_maker_note c7_state).info.GeoLocation.SpeedY = dblMax ∧
    (exif_parse_ifd_maker_note c7_state).info.GeoLocation.SpeedZ = dblMax ∧
    (exif_parse_ifd_maker_note c7_state).info.GeoLocation.PitchDegree = dblMax ∧
    (exif_parse_ifd_maker_note c7_state).info.GeoLocation.YawDegree = dblMax ∧
    (exif_parse_ifd_maker_note c7_state).info.GeoLocation.RollDegree = dblMax := by
  exact ⟨by decide, by decide, by decide, by decide, by decide,
    rfl, rfl, rfl, rfl, rfl, rfl⟩

/-- A minimal valid EXIF APP1 payload: preamble, "II", magic 0x2A,
first-IFD offset 8, entry count 0, next-IFD offset 0 (20 bytes). -/
def c1_exif_segment : List ℕ :=
  exifPreamble ++ [73, 73, 42, 0, 8, 0, 0, 0, 0, 0, 0, 0, 0, 0]

/-- A JPEG stream: SOI, an APP1 segment (length 22) carrying the valid EXIF
payload, then EOI. -/
def c1_data : List ℕ := [255, 216, 255, 225, 0, 22] ++ c1_exif_segment ++ [255, 217]

/-- Claim C1 (code bug): EXIF data is found in this stream — the segment
decoder reports Success and the top-level parse returns Success — yet the
record's `Fields` bitmask is still `EXIF_FIELD_NA` when the parse returns:
the scanner accumulates the presence bits only in the local `apps1` copy of
`Fields` and never stores them back (the C++ original wrote through a
reference). -/
theorem C1_fields_bitmask_never_set :
    (exif_parse_from_segment { exif_clear ei0 with has_app1 := true } c1_exif_segment).1 =
      EXIF_PARSE_SUCCESS ∧
    (exif_from_memory tokEmpty ei0 c1_data).1 = EXIF_PARSE_SUCCESS ∧
    (exif_from_memory tokEmpty ei0 c1_data).2.1.has_app1 = true ∧
    (exif_from_memory tokEmpty ei0 c1_data).2.1.Fields = EXIF_FIELD_NA ∧
    EXIF_FIELD_NA &&& EXIF_FIELD_EXIF = 0 := by
  decide

/-- Claim C3, counterexample: a payload whose 6-byte preamble fails
validation is answered with `AbsentData` (3), which is neither
`UnknownByteAlign` (2) nor `CorruptData` (4) as the claim requires. -/
theorem C3_preamble_failure_counterexample :
    (exif_parse_from_segment (exif_clear ei0) [0, 0, 0, 0, 0, 0]).1 =
      EXIF_PARSE_ABSENT_DATA ∧
    EXIF_PARSE_ABSENT_DATA ≠ EXIF_PARSE_UNKNOWN_BYTEALIGN ∧
    EXIF_PARSE_ABSENT_DATA ≠ EXIF_PARSE_CORRUPT_DATA := by
  decide

/-- Claim C3 as amended: a failing "Exif\0\0" preamble yields `AbsentData`;
with the preamble intact, a payload too short for the TIFF header yields
`CorruptData`, a byte-order marker that is neither "II" nor "MM" yields
`UnknownByteAlign`, and a wrong magic (≠ 0x2A) yields `CorruptData` — in
every case the record is returned unchanged, so no IFD entry is decoded. -/
theorem C3_header_validation (data : List ℕ) (rec : exif_info) :
    (data.take 6 ≠ exifPreamble →
      exif_parse_from_segment rec data = (EXIF_PARSE_ABSENT_DATA, rec)) ∧
    (data.take 6 = exifPreamble → data.length < 14 →
      exif_parse_from_segment rec data = (EXIF_PARSE_CORRUPT_DATA, rec)) ∧
    (data.take 6 = exifPreamble → 14 ≤ data.length → byteAlign data = none →
      exif_parse_from_segment rec data = (EXIF_PARSE_UNKNOWN_BYTEALIGN, rec)) ∧
    (∀ intel, data.take 6 = exifPreamble → 14 ≤ data.length →
      byteAlign data = some intel → parse16 data 8 intel ≠ 42 →
      exif_parse_from_segment rec data = (EXIF_PARSE_CORRUPT_DATA, rec)) := by
  refine ⟨?_, ?_, ?_, ?_⟩
  · intro hpre
    by_cases h6 : data.length < 6 <;> simp [exif_parse_from_segment, h6, hpre]
  · intro hpre hlen
    have h6 : ¬ data.length < 6 := by
      have := congrArg List.length hpre
      simp [exifPreamble] at this
      omega
    simp [exif_parse_from_segment, h6, hpre, hlen]
  · intro hpre hlen hba
    have h6 : ¬ data.length < 6 := by
      have := congrArg List.length hpre
      simp [exifPreamble] at this
      omega
    have h14 : ¬ data.length < 14 := by omega
    simp [exif_parse_from_segment, h6, hpre, h14, hba]
  · intro intel hpre hlen hba hmagic
    have h6 : ¬ data.length < 6 := by
      have := congrArg List.length hpre
      simp [exifPreamble] at this
      omega
    have h14 : ¬ data.length < 14 := by omega
    simp [exif_parse_from_segment, h6, hpre, h14, hba, hmagic]

/-- Witness for C3 at concrete inputs: an all-zero byte-order marker gives
`UnknownByteAlign`, a zero magic gives `CorruptData`, a broken preamble
gives `AbsentData`, each with the record unchanged. -/
theorem C3_header_validation_witness :
    exif_parse_from_segment (exif_clear ei0) (exifPreamble ++ [0, 0, 42, 0, 8, 0, 0, 0]) =
      (EXIF_PARSE_UNKNOWN_BYTEALIGN, exif_clear ei0) ∧
    exif_parse_from_segment (exif_clear ei0) (exifPreamble ++ [73, 73, 0, 0, 8, 0, 0, 0]) =
      (EXIF_PARSE_CORRUPT_DATA, exif_clear ei0) ∧
    exif_parse_from_segment (exif_clear ei0) [1, 2, 3] =
      (EXIF_PARSE_ABSENT_DATA, exif_clear ei0) := by
  refine ⟨?_, ?_, ?_⟩
  · exact (C3_header_validation _ _).2.2.1 (by decide) (by decide) (by decide)
  · exact (C3_header_validation _ _).2.2.2 true (by decide) (by decide) (by decide) (by decide)
  · exact (C3_header_validation _ _).1 (by decide)

/-- Claim C2: with a valid EXIF/TIFF header, whenever an IFD's declared
entry count would read past the buffer (`offset + 6 + 12·count > bytes`, the
check performed before iterating), exif_parse_from_segment returns
`CorruptData`, and the record returned is exactly the one decoded so far:
the untouched input record for IFD0, and the record produced by the
complete IFD0 walk for a truncated Exif or GPS sub-IFD (no entry of the
truncated directory is decoded). -/
theorem C2_truncated_directory_is_corrupt (data : List ℕ) (rec : exif_info)
    (intel : Bool)
    (hpre : data.take 6 = exifPreamble) (hlen : 14 ≤ data.length)
    (hba : byteAlign data = some intel) (hmagic : parse16 data 8 intel = 42)
    (ho : ifd0_offs data intel < data.length)
    (h2 : ifd0_offs data intel + 2 ≤ data.length) :
    (data.length < ifd0_offs data intel + 6 +
        12 * parse16 data (ifd0_offs data intel) intel →
      exif_parse_from_segment rec data = (EXIF_PARSE_CORRUPT_DATA, rec)) ∧
    (ifd0_offs data intel + 6 + 12 * parse16 data (ifd0_offs data intel) intel ≤
        data.length →
      ((segment_ifd0 data intel rec).2.1 + 4) % U32 ≤ data.length →
      data.length < (segment_ifd0 data intel rec).2.1 + 6 +
        12 * parse16 data ((segment_ifd0 data intel rec).2.1) intel →
      exif_parse_from_segment rec data =
        (EXIF_PARSE_CORRUPT_DATA, (segment_ifd0 data intel rec).1.info)) ∧
    (ifd0_offs data intel + 6 + 12 * parse16 data (ifd0_offs data intel) intel ≤
        data.length →
      ¬ ((segment_ifd0 data intel rec).2.1 + 4) % U32 ≤ data.length →
      ((segment_ifd0 data intel rec).2.2 + 4) % U32 ≤ data.length →
      data.length < (segment_ifd0 data intel rec).2.2 + 6 +
        12 * parse16 data ((segment_ifd0 data intel rec).2.2) intel →
      exif_parse_from_segment rec data =
        (EXIF_PARSE_CORRUPT_DATA, (segment_ifd0 data intel rec).1.info)) ∧
    (ifd0_offs data intel + 6 + 12 * parse16 data (ifd0_offs data intel) intel ≤
        data.length →
      ((segment_ifd0 data intel rec).2.1 + 4) % U32 ≤ data.length →
      (segment_ifd0 data intel rec).2.1 + 6 +
        12 * parse16 data ((segment_ifd0 data intel rec).2.1) intel ≤ data.length →
      ((segment_ifd0 data intel rec).2.2 + 4) % U32 ≤ data.length →
      data.length < (segment_ifd0 data intel rec).2.2 + 6 +
        12 * parse16 data ((segment_ifd0 data intel rec).2.2) intel →
      exif_parse_from_segment rec data =
        (EXIF_PARSE_CORRUPT_DATA,
          (exif_walk (parse16 data ((segment_ifd0 data intel rec).2.1) intel)
            (parser_init (segment_ifd0 data intel rec).1
              ((segment_ifd0 data intel rec).2.1 + 2))).info)) := by
  have h6 : ¬ data.length < 6 := by omega
  have h14 : ¬ data.length < 14 := by omega
  have ho2 : ¬ data.length ≤ ifd0_offs data intel := by omega
  have ho3 : ¬ data.length < ifd0_offs data intel + 2 := by omega
  refine ⟨?_, ?_, ?_, ?_⟩
  · intro htrunc
    simp [exif_parse_from_segment, h6, hpre, h14, hba, hmagic, ho2, ho3, htrunc]
  · intro hok he htrunc
    have hok2 : ¬ data.length < ifd0_offs data intel + 6 +
        12 * parse16 data (ifd0_offs data intel) intel := by omega
    simp [exif_parse_from_segment, h6, hpre, h14, hba, hmagic, ho2, ho3, hok2, he, htrunc]
  · intro hok hne hg htrunc
    have hok2 : ¬ data.length < ifd0_offs data intel + 6 +
        12 * parse16 data (ifd0_offs data intel) intel := by omega
    simp [exif_parse_from_segment, h6, hpre, h14, hba, hmagic, ho2, ho3, hok2, hne, hg,
      htrunc]
  · intro hok he hexok hg htrunc
    have hok2 : ¬ data.length < ifd0_offs data intel + 6 +
        12 * parse16 data (ifd0_offs data intel) intel := by omega
    have hexok2 : ¬ data.length < (segment_ifd0 data intel rec).2.1 + 6 +
        12 * parse16 data ((segment_ifd0 data intel rec).2.1) intel := by omega
    simp [exif_parse_from_segment, h6, hpre, h14, hba, hmagic, ho2, ho3, hok2, he, hexok2,
      hg, htrunc]

/-- A valid header followed by an IFD0 that declares 5 entries with only 2
bytes of directory left. -/
def c2_data : List ℕ := exifPreamble ++ [73, 73, 42, 0, 8, 0, 0, 0, 5, 0]

/-- A valid header with a 2-entry IFD0 (orientation 1, then the Exif
sub-IFD pointer to offset 30, i.e. buffer position 36 where the next 16-bit
word reads 30), whose Exif sub-IFD bound check then fails. -/
def c2b_data : List ℕ :=
  exifPreamble ++ [73, 73, 42, 0, 8, 0, 0, 0] ++
  [2, 0] ++
  [18, 1, 3, 0, 1, 0, 0, 0, 1, 0, 0, 0] ++
  [105, 135, 4, 0, 1, 0, 0, 0, 30, 0, 0, 0] ++
  [0, 0, 0, 0]

/-- Witness for C2 at concrete inputs: the truncated IFD0 returns
CorruptData with the record untouched; the truncated Exif sub-IFD returns
CorruptData with the record of the completed IFD0 walk, in which the
already-decoded Orientation field (value 1) is retained. -/
theorem C2_truncated_directory_is_corrupt_witness :
    exif_parse_from_segment (exif_clear ei0) c2_data =
      (EXIF_PARSE_CORRUPT_DATA, exif_clear ei0) ∧
    exif_parse_from_segment (exif_clear ei0) c2b_data =
      (EXIF_PARSE_CORRUPT_DATA, (segment_ifd0 c2b_data true (exif_clear ei0)).1.info) ∧
    (segment_ifd0 c2b_data true (exif_clear ei0)).1.info.Orientation = 1 := by
  refine ⟨?_, ?_, by decide⟩
  · exact (C2_truncated_directory_is_corrupt c2_data (exif_clear ei0) true
      (by decide) (by decide) (by decide) (by decide) (by decide) (by decide)).1 (by decide)
  · exact (C2_truncated_directory_is_corrupt c2b_data (exif_clear ei0) true
      (by decide) (by decide) (by decide) (by decide) (by decide) (by decide)).2.1
      (by decide) (by decide) (by decide)

/-- Claim C8: when the scan reaches an APP1 segment whose decoding sets the
second of the two presence bits (EXIF after XMP, or XMP after EXIF), the
loop returns Success at once: the returned stream cursor is the position
immediately after that segment's payload, so no further segment is read,
decoded or skipped. -/
theorem C8_early_exit_on_both_bits (tok : XmpTokenizer) (data : List ℕ)
    (fuel it apps1 sb : ℕ) (rec : exif_info)
    (hff : data.getD it 0 = 255) (hm : data.getD (it + 1) 0 = 225)
    (hsb : parse16 data (it + 2) false = sb) (hsb2 : 2 < sb)
    (hfit : it + 4 + (sb - 2) ≤ data.length) :
    (∀ rec2, exif_parse_from_segment { rec with has_app1 := true }
        ((data.drop (it + 4)).take (sb - 2)) = (EXIF_PARSE_SUCCESS, rec2) →
      apps1 ||| EXIF_FIELD_EXIF = EXIF_FIELD_ALL →
      scanLoop tok data (fuel + 1) it apps1 rec =
        (EXIF_PARSE_SUCCESS, rec2, it + 4 + (sb - 2))) ∧
    (∀ rec2 rec3, exif_parse_from_segment { rec with has_app1 := true }
        ((data.drop (it + 4)).take (sb - 2)) = (EXIF_PARSE_ABSENT_DATA, rec2) →
      parse_xmp tok rec2 ((data.drop (it + 4)).take (sb - 2)) =
        (EXIF_PARSE_SUCCESS, rec3) →
      apps1 ||| EXIF_FIELD_XMP = EXIF_FIELD_ALL →
      scanLoop tok data (fuel + 1) it apps1 rec =
        (EXIF_PARSE_SUCCESS, rec3, it + 4 + (sb - 2))) := by
  have h1 : ¬ data.length < it + 2 := by omega
  have hskip : skipFF data (it + 1) (it + 2) = (225, it + 2) := by
    simp only [skipFF, skipFF_go, hm]
    norm_num
  simp only [List.getD_eq_getElem?_getD] at hff hm
  have h2 : ¬ data.length < it + 2 + 2 := by omega
  have h3 : ¬ sb ≤ 2 := by omega
  have h4 : ¬ data.length < it + 2 + 2 + (sb - 2) := by omega
  constructor
  · intro rec2 hseg hall
    simp [scanLoop, h1, hff, hskip, h2, hsb, h3, h4, hseg, hall, EXIF_PARSE_SUCCESS,
      EXIF_PARSE_ABSENT_DATA]
  · intro rec2 rec3 hseg hxmp hall
    simp [scanLoop, h1, hff, hskip, h2, hsb, h3, h4, hseg, hxmp, hall, EXIF_PARSE_SUCCESS,
      EXIF_PARSE_ABSENT_DATA]

/-- A 30-byte XMP APP1 payload: the namespace preamble plus one XML byte. -/
def c8_xmp_payload : List ℕ := xmpPreamble ++ [120]

/-- An APP1 marker (length 32) carrying the XMP payload, followed by two
junk bytes that a continued scan would have consumed. -/
def c8_data : List ℕ := [255, 225, 0, 32] ++ c8_xmp_payload ++ [0, 55]

/-- Witness for C8 at a concrete stream position: with the EXIF bit already
set, decoding the XMP APP1 returns Success with the cursor at 34 — the end
of the segment — while the stream has 36 bytes, so the junk suffix is never
scanned. -/
theorem C8_early_exit_on_both_bits_witness :
    scanLoop tokEmpty c8_data (4 + 1) 0 1 (exif_clear ei0) =
      (EXIF_PARSE_SUCCESS,
        (parse_xmp tokEmpty { exif_clear ei0 with has_app1 := true }
          ((c8_data.drop 4).take 30)).2,
        34) ∧
    c8_data.length = 36 := by
  refine ⟨?_, by decide⟩
  have hfst : (parse_xmp tokEmpty { exif_clear ei0 with has_app1 := true }
      ((c8_data.drop 4).take 30)).1 = EXIF_PARSE_SUCCESS := rfl
  have hxmp : parse_xmp tokEmpty { exif_clear ei0 with has_app1 := true }
      ((c8_data.drop 4).take 30) =
      (EXIF_PARSE_SUCCESS,
        (parse_xmp tokEmpty { exif_clear ei0 with has_app1 := true }
          ((c8_data.drop 4).take 30)).2) := by
    rw [← hfst]
  exact (C8_early_exit_on_both_bits tokEmpty c8_data 4 0 1 32 (exif_clear ei0)
    (by decide) (by decide) (by decide) (by decide) (by decide)).2
    { exif_clear ei0 with has_app1 := true } _ rfl hxmp (by decide)

/-- Claim C9: after parse_xmp_xml completes — for any tokenizer behavior,
any XMP payload and any incoming record — no rule slot is null, and a slot
that was still unset when the event run finished has been assigned the
empty-list sentinel (a NUL closed by a second NUL). -/
theorem C9_unwritten_slots_get_sentinel (tok : XmpTokenizer) (xml : List ℕ)
    (ei : exif_info) (i : ℕ) (hi : i < npv.length) :
    (parse_xmp_xml tok ei xml).2.xmp i ≠ none ∧
    ((xmp_run (tok xml).1
        { ei := { ei with not_enough_memory := false }, stack := [], index := -1 }).ei.xmp i =
          none →
      (parse_xmp_xml tok ei xml).2.xmp i = some XmpVal.sentinel) := by
  constructor
  · simp only [parse_xmp_xml, xmp_fill]
    cases hc : (xmp_run (tok xml).1
        { ei := { ei with not_enough_memory := false }, stack := [], index := -1 }).ei.xmp i with
    | none => simp [hi, hc]
    | some v => simp [hc]
  · intro h
    simp only [parse_xmp_xml, xmp_fill]
    simp [hi, h]

/-- Witness for C9: with the trivial tokenizer on an empty payload and a
fresh record, slot 0 is non-null and holds the sentinel. -/
theorem C9_unwritten_slots_get_sentinel_witness :
    (parse_xmp_xml tokEmpty ei0 []).2.xmp 0 ≠ none ∧
    (parse_xmp_xml tokEmpty ei0 []).2.xmp 0 = some XmpVal.sentinel := by
  refine ⟨(C9_unwritten_slots_get_sentinel tokEmpty [] ei0 0 (by decide)).1, ?_⟩
  exact (C9_unwritten_slots_get_sentinel tokEmpty [] ei0 0 (by decide)).2 rfl

/-- The rule-matching loop never changes the element-name stack. -/
theorem xmp_match_rules_stack (rules : List xml_npv_t) (i : ℕ) (ctx : xml_context_t) :
    (xmp_match_rules rules i ctx).stack = ctx.stack := by
  induction rules generalizing i ctx with
  | nil => rfl
  | cons r rest ih =>
    simp only [xmp_match_rules]
    repeat' split
    all_goals simp [ih]

/-- One extractor event keeps the open-element stack within 64 entries. -/
theorem yxml_xmp_stack_le (ctx : xml_context_t) (e : xml_event)
    (h : ctx.stack.length ≤ 64) : (yxml_xmp ctx e).stack.length ≤ 64 := by
  cases e with
  | elem_start name =>
    simp only [yxml_xmp, yxml_element_start]
    by_cases hc : ctx.ei.not_enough_memory = true ∨ 64 ≤ ctx.stack.length
    · simp [hc, h]
    · simp only [if_neg hc, xmp_match_rules_stack]
      simp only [not_or, not_le] at hc
      simp
      omega
  | content d =>
    simp only [yxml_xmp, yxml_content]
    repeat' split
    all_goals simp [h]
  | elem_end =>
    simp only [yxml_xmp, yxml_element_end]
    by_cases hc : ctx.ei.not_enough_memory = true
    · simp [hc, h]
    · by_cases hi : (0 : Int) ≤ ctx.index <;>
        simp [hc, hi, List.length_tail] <;> omega

/-- Claim C10: the open-element name stack of the XMP extractor never holds
more than 64 entries: any event run from a state within the bound stays
within the bound, and an element-start event arriving with 64 names already
on the stack sets the record's not-enough-memory flag and pushes nothing. -/
theorem C10_element_stack_bounded :
    (∀ events ctx, ctx.stack.length ≤ 64 →
      (xmp_run events ctx).stack.length ≤ 64) ∧
    (∀ ctx name, 64 ≤ ctx.stack.length →
      yxml_element_start ctx name =
        { ctx with ei := { ctx.ei with not_enough_memory := true } }) := by
  constructor
  · intro events
    induction events with
    | nil => intro ctx h; exact h
    | cons e es ih =>
      intro ctx h
      exact ih _ (yxml_xmp_stack_le ctx e h)
  · intro ctx name h
    simp [yxml_element_start, Or.inr h]

/-- Witness for C10: a single element-start from the empty stack stays in
bounds, and an element-start on a full 64-entry stack only sets the flag. -/
theorem C10_element_stack_bounded_witness :
    (xmp_run [xml_event.elem_start ("rdf:RDF")]
      { ei := ei0, stack := [], index := -1 }).stack.length ≤ 64 ∧
    yxml_element_start
        { ei := ei0, stack := List.replicate 64 ("rdf:li"), index := -1 } ("x") =
      { ei := { ei0 with not_enough_memory := true },
        stack := List.replicate 64 ("rdf:li"), index := -1 } := by
  exact ⟨C10_element_stack_bounded.1 _ _ (by decide),
    C10_element_stack_bounded.2 _ _ (by decide)⟩

end TinyExif
